import Mathlib

/-!
Verification of the token-usage aggregation scripts and the log formatter
of the `openclaw_misc` repository.

The development shallowly embeds the three Python scripts:

* `scripts/claude_tokens_daily.py`  (provider A, namespace `Claude`)
* `scripts/qwen_tokens_daily.py`    (provider B, namespace `Qwen`)
* `scripts/format_log.py`           (namespace `FormatLog`)

JSON values are modelled by the inductive type `JValue`; Python's dynamic
behavior that the scripts rely on (truthiness, `dict.get`, `==`,
exceptions such as `TypeError`/`AttributeError`) is modelled explicitly.
JSON numbers are modelled as integers (the logs' token counters are
integers; float-specific behavior is outside the model's scope).
A log line is modelled by its `json.loads` parse result where noted.
-/

/-- A parsed JSON value (the result of Python's `json.loads`).  Objects keep
their key/value pairs in insertion order with unique keys, as Python dicts
do. -/
inductive JValue where
  | null
  | bool (b : Bool)
  | num (n : Int)
  | str (s : String)
  | arr (xs : List JValue)
  | obj (fields : List (String × JValue))

mutual

/-- Structural equality of JSON values (Python `==` on parsed JSON data). -/
def JValue.beq : JValue → JValue → Bool
  | .null, .null => true
  | .bool a, .bool b => a == b
  | .num a, .num b => a == b
  | .str a, .str b => a == b
  | .arr a, .arr b => JValue.beqList a b
  | .obj a, .obj b => JValue.beqFields a b
  | _, _ => false

def JValue.beqList : List JValue → List JValue → Bool
  | [], [] => true
  | x :: xs, y :: ys => JValue.beq x y && JValue.beqList xs ys
  | _, _ => false

def JValue.beqFields : List (String × JValue) → List (String × JValue) → Bool
  | [], [] => true
  | (k, v) :: xs, (k2, v2) :: ys => k == k2 && JValue.beq v v2 && JValue.beqFields xs ys
  | _, _ => false

end

/-- Python `dict.get(key)`: the value stored under `key`, if any. -/
def jlookup (fields : List (String × JValue)) (key : String) : Option JValue :=
  match fields with
  | [] => none
  | (k, v) :: rest => if k = key then some v else jlookup rest key

/-- Python `dict.get(key, dflt)`. -/
def jlookupD (fields : List (String × JValue)) (key : String) (dflt : JValue) : JValue :=
  (jlookup fields key).getD dflt

/-- Python truthiness of a JSON value (`None`, `False`, `0`, `""`, `[]` and
`{}` are falsy). -/
def truthy : JValue → Bool
  | .null => false
  | .bool b => b
  | .num n => !(n == 0)
  | .str s => !(s == "")
  | .arr xs => !xs.isEmpty
  | .obj fs => !fs.isEmpty

/-- The numeric value of a JSON value when Python would accept it in integer
arithmetic (`bool` is an `int` subtype); `none` models the `TypeError`
raised by `sum`/`+=` on any other type. -/
def asNum : JValue → Option Int
  | .num n => some n
  | .bool b => some (if b then 1 else 0)
  | _ => none

/-- Python `v == 0` for a JSON value (`False == 0` is `True`; comparison of
`0` with a non-number is `False`, not an error). -/
def pyEqZero : JValue → Bool
  | .num n => n == 0
  | .bool b => !b
  | _ => false

/-- `entry.get("type") == "assistant"` (identical in both aggregator
scripts). -/
def isAssistant (e : List (String × JValue)) : Bool :=
  match jlookup e "type" with
  | some (.str s) => s == "assistant"
  | _ => false

/-- Membership in a Python set of JSON values. -/
def memJ (m : JValue) (xs : List JValue) : Bool :=
  xs.any (fun x => JValue.beq x m)

/-- Python `set.add`: sets are modelled as duplicate-free lists in insertion
order. -/
def insertModel (xs : List JValue) (m : JValue) : List JValue :=
  if memJ m xs then xs else xs ++ [m]

/-- Python `set.update`: add every element of `ys`. -/
def unionModels (xs ys : List JValue) : List JValue :=
  ys.foldl insertModel xs

/-! ## Calendar and timestamp parsing

`parse_timestamp` is textually identical in `claude_tokens_daily.py` and
`qwen_tokens_daily.py`; it is modelled once.  The Python library functions
it calls (`datetime.strptime` with the two fixed formats,
`datetime.fromisoformat`, `strftime("%Y-%m-%d")`) are modelled from their
documented behavior on the relevant input shapes. -/

/-- The decimal digit character for `n < 10` (and `'9'` for larger `n`,
which never occurs in valid uses). -/
def digitChar : Nat → Char
  | 0 => '0'
  | 1 => '1'
  | 2 => '2'
  | 3 => '3'
  | 4 => '4'
  | 5 => '5'
  | 6 => '6'
  | 7 => '7'
  | 8 => '8'
  | _ => '9'

/-- The value of a decimal digit character, if it is one. -/
def digitVal (c : Char) : Option Nat :=
  if '0' ≤ c ∧ c ≤ '9' then some (c.toNat - 48) else none

/-- Two-character zero-padded decimal rendering (`%02d`, valid for
`n < 100`). -/
def pad2 (n : Nat) : List Char := [digitChar (n / 10), digitChar (n % 10)]

/-- Three-character zero-padded decimal rendering (valid for `n < 1000`). -/
def pad3 (n : Nat) : List Char := digitChar (n / 100) :: pad2 (n % 100)

/-- Four-character zero-padded decimal rendering (`%Y`, valid for
`n < 10000`). -/
def pad4 (n : Nat) : List Char := pad2 (n / 100) ++ pad2 (n % 100)

/-- Whether year `y` is a leap year (proleptic Gregorian, as Python's
`datetime`). -/
def isLeap (y : Nat) : Bool := y % 4 == 0 && (y % 100 != 0 || y % 400 == 0)

/-- Number of days in month `m` of year `y`. -/
def daysInMonth (y m : Nat) : Nat :=
  if m = 2 then (if isLeap y then 29 else 28)
  else if m = 4 ∨ m = 6 ∨ m = 9 ∨ m = 11 then 30
  else 31

/-- A Python `datetime.date` (`datetime.MINYEAR = 1`,
`datetime.MAXYEAR = 9999`). -/
structure PyDate where
  year : Nat
  month : Nat
  day : Nat
  deriving DecidableEq, Repr

/-- The validation performed by the `datetime` constructor, restricted to
the fields that the scripts surface: invalid components raise `ValueError`
(modelled as `none`).  `second` may pass the `strptime` regex as 60 or 61
but is rejected here, as by the constructor. -/
def mkStamp (y mo d h mi s : Nat) : Option PyDate :=
  if 1 ≤ y ∧ y ≤ 9999 ∧ 1 ≤ mo ∧ mo ≤ 12 ∧ 1 ≤ d ∧ d ≤ daysInMonth y mo
      ∧ h ≤ 23 ∧ mi ≤ 59 ∧ s ≤ 59 then
    some ⟨y, mo, d⟩
  else none

/-- `datetime.strftime("%Y-%m-%d")` of a date: zero-padded fields. -/
def pyDateString (d : PyDate) : String :=
  ⟨pad4 d.year ++ '-' :: pad2 d.month ++ '-' :: pad2 d.day⟩

/-- `%Y` in CPython's `strptime`: exactly four decimal digits. -/
def grabY : List Char → Option (Nat × List Char)
  | a :: b :: c :: d :: rest => do
      let a1 ← digitVal a
      let b1 ← digitVal b
      let c1 ← digitVal c
      let d1 ← digitVal d
      pure (1000 * a1 + 100 * b1 + 10 * c1 + d1, rest)
  | _ => none

/-- A one-or-two-digit `strptime` field.  CPython compiles e.g. `%m` to the
regex alternation `1[0-2]|0[1-9]|[1-9]`: a two-digit match is taken when the
two-digit value is in the field's two-digit set (`ok2`), otherwise a single
digit is taken when allowed (`ok1`).  (Regex backtracking across later
tokens is not modelled; no claim depends on it.) -/
def grab2or1 (ok2 ok1 : Nat → Bool) : List Char → Option (Nat × List Char)
  | a :: b :: rest =>
      match digitVal a, digitVal b with
      | some x, some y =>
          if ok2 (10 * x + y) then some (10 * x + y, rest)
          else if ok1 x then some (x, b :: rest) else none
      | some x, none => if ok1 x then some (x, b :: rest) else none
      | _, _ => none
  | [a] => do
      let x ← digitVal a
      if ok1 x then some (x, []) else none
  | [] => none

/-- Match one literal character. -/
def expectChar (c : Char) : List Char → Option (List Char)
  | d :: rest => if d = c then some rest else none
  | [] => none

/-- The common `%Y-%m-%dT%H:%M:%S` prefix of the two `strptime` formats
used by `parse_timestamp`, with CPython's per-field regex sets. -/
def grabDateTime (cs : List Char) : Option (Nat × Nat × Nat × Nat × Nat × Nat × List Char) := do
  let (y, r) ← grabY cs
  let r ← expectChar '-' r
  let (mo, r) ← grab2or1 (fun n => 1 ≤ n && n ≤ 12) (fun n => 1 ≤ n && n ≤ 9) r
  let r ← expectChar '-' r
  let (d, r) ← grab2or1 (fun n => 1 ≤ n && n ≤ 31) (fun n => 1 ≤ n && n ≤ 9) r
  let r ← expectChar 'T' r
  let (h, r) ← grab2or1 (fun n => n ≤ 23) (fun _ => true) r
  let r ← expectChar ':' r
  let (mi, r) ← grab2or1 (fun n => n ≤ 59) (fun _ => true) r
  let r ← expectChar ':' r
  let (s, r) ← grab2or1 (fun n => n ≤ 61) (fun _ => true) r
  pure (y, mo, d, h, mi, s, r)

/-- `datetime.strptime(u, "%Y-%m-%dT%H:%M:%S.%fZ")`, keeping the date
(`%f` is one to six digits). -/
def strptimeZdotted (cs : List Char) : Option PyDate := do
  let (y, mo, d, h, mi, s, r) ← grabDateTime cs
  let r ← expectChar '.' r
  let frac := r.takeWhile (fun c => (digitVal c).isSome)
  let r2 := r.dropWhile (fun c => (digitVal c).isSome)
  if 1 ≤ frac.length ∧ frac.length ≤ 6 then
    let r3 ← expectChar 'Z' r2
    if r3 = [] then mkStamp y mo d h mi s else none
  else none

/-- `datetime.strptime(u, "%Y-%m-%dT%H:%M:%SZ")`, keeping the date. -/
def strptimeZplain (cs : List Char) : Option PyDate := do
  let (y, mo, d, h, mi, s, r) ← grabDateTime cs
  let r2 ← expectChar 'Z' r
  if r2 = [] then mkStamp y mo d h mi s else none

/-- A Python `datetime.datetime`: date, time fields, and an optional fixed
UTC offset in minutes (`none` = naive). -/
structure PyDateTime where
  date : PyDate
  hour : Nat
  minute : Nat
  second : Nat
  usec : Nat
  tzOffsetMinutes : Option Int
  deriving DecidableEq, Repr

/-- Exactly two decimal digits. -/
def grab2exact : List Char → Option (Nat × List Char)
  | a :: b :: rest => do
      let x ← digitVal a
      let y ← digitVal b
      pure (10 * x + y, rest)
  | _ => none

/-- The `HH[:MM[:SS[.ffffff]]]` part of an ISO time (fraction introduced by
`.` or `,`, any number of digits, truncated to microseconds). -/
def grabIsoTime (r : List Char) : Option (Nat × Nat × Nat × Nat × List Char) := do
  let (h, r) ← grab2exact r
  match r with
  | ':' :: r2 => do
      let (mi, r3) ← grab2exact r2
      match r3 with
      | ':' :: r4 => do
          let (s, r5) ← grab2exact r4
          match r5 with
          | c :: r6 =>
              if c = '.' ∨ c = ',' then
                let ds := r6.takeWhile (fun d => (digitVal d).isSome)
                let r7 := r6.dropWhile (fun d => (digitVal d).isSome)
                if ds.isEmpty then none
                else
                  let us := (ds.take 6 ++ List.replicate (6 - ds.length) '0').foldl
                    (fun acc d => acc * 10 + ((digitVal d).getD 0)) 0
                  pure (h, mi, s, us, r7)
              else pure (h, mi, s, 0, c :: r6)
          | [] => pure (h, mi, s, 0, [])
      | _ => pure (h, mi, 0, 0, r3)
  | _ => pure (h, 0, 0, 0, r)

/-- The `[Z | ±HH[:]MM | ±HH]` timezone suffix of an ISO timestamp, as an
offset in minutes (offsets must be under 24 hours; offset seconds are not
modelled). -/
def grabIsoTz : List Char → Option (Option Int × List Char)
  | [] => some (none, [])
  | c :: r1 =>
      if c = 'Z' ∨ c = 'z' then some (some 0, r1)
      else if c = '+' ∨ c = '-' then
        (do
          let (th, r2) ← grab2exact r1
          let (tm, r3) ←
            match r2 with
            | ':' :: r3 => do
                let (tm, r4) ← grab2exact r3
                pure (tm, r4)
            | d :: r3 =>
                if (digitVal d).isSome then do
                  let (tm, r4) ← grab2exact (d :: r3)
                  pure (tm, r4)
                else pure (0, d :: r3)
            | [] => pure (0, ([] : List Char))
          if tm ≤ 59 ∧ th * 60 + tm < 1440 then
            let sign : Int := if c = '+' then 1 else -1
            pure (some (sign * (th * 60 + tm)), r3)
          else none)
      else none

/-- Modelled from the documented behavior of Python's
`datetime.fromisoformat` on extended-format ISO-8601 strings:
`YYYY-MM-DD[<sep>HH[:MM[:SS[.f+]]][tz]]` with an arbitrary one-character
date/time separator.  (Basic formats without separators, ISO week dates and
fractional hours/minutes are not modelled; no claim exercises them.) -/
def fromisoformat (cs : List Char) : Option PyDateTime := do
  let (y, r) ← grabY cs
  let r ← expectChar '-' r
  let (mo, r) ← grab2exact r
  let r ← expectChar '-' r
  let (d, r) ← grab2exact r
  let date ← mkStamp y mo d 0 0 0
  match r with
  | [] => pure ⟨date, 0, 0, 0, 0, none⟩
  | _ :: r1 => do
      let (h, mi, s, us, r2) ← grabIsoTime r1
      let (tz, r3) ← grabIsoTz r2
      if r3 = [] ∧ h ≤ 23 ∧ mi ≤ 59 ∧ s ≤ 59 then
        pure ⟨date, h, mi, s, us, tz⟩
      else none

/-- Python `"." in s` (single-character containment). -/
def hasDot (cs : List Char) : Bool := cs.any (fun c => c == '.')

/-- Python `s.endswith("Z")`: the last character is `'Z'`. -/
def endsWithZ (cs : List Char) : Bool :=
  match cs.reverse with
  | c :: _ => c == 'Z'
  | [] => false

/-- Python `s.rsplit(".", 1)` for a string containing a dot: the parts
before and after the last dot.  (The scripts only call it under an
`if "." in ts_str` guard.) -/
def rsplitLastDot : List Char → List Char × List Char
  | [] => ([], [])
  | c :: rest =>
      if hasDot rest then
        let p := rsplitLastDot rest
        (c :: p.1, p.2)
      else if c = '.' then ([], rest)
      else (c :: rest, [])

/-- Python `s.rstrip("Z")`: remove all trailing `'Z'` characters. -/
def rstripZ : List Char → List Char
  | [] => []
  | c :: rest =>
      let r := rstripZ rest
      if r = [] ∧ c = 'Z' then [] else c :: r

/-- Python `s.ljust(3, "0")`. -/
def ljust3 (cs : List Char) : List Char := cs ++ List.replicate (3 - cs.length) '0'

/-- Python `s.replace("Z", "+00:00")`. -/
def replaceZ : List Char → List Char
  | [] => []
  | c :: rest =>
      if c = 'Z' then '+' :: '0' :: '0' :: ':' :: '0' :: '0' :: replaceZ rest
      else c :: replaceZ rest

/-- `parse_timestamp` of `claude_tokens_daily.py` lines 33-52 and
`qwen_tokens_daily.py` lines 22-39 (textually identical).  The argument is
the raw `timestamp` value from the log record; a falsy value returns
`"unknown"` (`if not ts_str`), a truthy non-string raises `AttributeError`
inside the `try`, which the bare `except` turns into `"unknown"`. -/
def parse_timestamp (ts : JValue) : String :=
  if truthy ts = false then "unknown"
  else
    match ts with
    | .str s =>
        let cs := s.data
        if endsWithZ cs then
          if hasDot cs then
            let p := rsplitLastDot cs
            let ms := ljust3 ((rstripZ p.2).take 3)
            match strptimeZdotted (p.1 ++ '.' :: (ms ++ ['Z'])) with
            | some d => pyDateString d
            | none => "unknown"
          else
            match strptimeZplain cs with
            | some d => pyDateString d
            | none => "unknown"
        else
          match fromisoformat (replaceZ cs) with
          | some dt => pyDateString dt.date
          | none => "unknown"
    | _ => "unknown"

/-- Attempt (a) of the spec's timestamp policy: `Z`-suffixed `strptime`
with the fractional seconds rebuilt to exactly three digits (a no-op
rebuild when the string has no dot). -/
def attemptA (cs : List Char) : Option PyDate :=
  if hasDot cs then
    let p := rsplitLastDot cs
    strptimeZdotted (p.1 ++ '.' :: (ljust3 ((rstripZ p.2).take 3) ++ ['Z']))
  else strptimeZdotted cs

/-- Attempt (b): `Z`-suffixed `strptime` with no fractional seconds. -/
def attemptB (cs : List Char) : Option PyDate := strptimeZplain cs

/-- Attempt (c): generic ISO-8601 parse of the string with `Z` replaced by
`+00:00`. -/
def attemptC (cs : List Char) : Option PyDate :=
  (fromisoformat (replaceZ cs)).map (fun dt => dt.date)

/-! ## Provider A: `claude_tokens_daily.py`

A log file is modelled as the list of its non-blank lines' `json.loads`
results (`none` = the line failed to parse; blank lines are skipped by the
code before parsing and a blank line is not valid JSON, so both are
observationally `none`).  The per-date mapping is modelled as a total
function defaulting to the zero bucket, matching the `defaultdict`. -/

namespace Claude

/-- One `daily[date]` bucket: the four counters and the set of models. -/
structure Bucket where
  input_tokens : Int
  output_tokens : Int
  cache_read_tokens : Int
  cache_creation_tokens : Int
  models_used : List JValue

/-- The `defaultdict` default. -/
def Bucket.empty : Bucket := ⟨0, 0, 0, 0, []⟩

/-- The per-date aggregate mapping. -/
def Daily : Type := String → Bucket

/-- The zero-initialized aggregate. -/
def Daily.empty : Daily := fun _ => Bucket.empty

/-- The result of `extract_tokens_from_entry`: the four counters exactly as
read from the usage dict (any JSON value; defaults are the int `0`), plus
the model (`JValue.null` models Python `None`). -/
structure Tokens where
  input_tokens : JValue
  output_tokens : JValue
  cache_read_tokens : JValue
  cache_creation_tokens : JValue
  model : JValue

/-- `extract_tokens_from_entry` (lines 55-90): the model comes from
`message.model` of an assistant entry; usage is read from the top-level
`usage` key, else from `message.usage` of an assistant entry, and its four
counters are taken when it is a truthy dict (`if usage and
isinstance(usage, dict)`). -/
def extract_tokens_from_entry (e : List (String × JValue)) : Tokens :=
  let model : JValue :=
    if isAssistant e then
      match jlookupD e "message" (.obj []) with
      | .obj m => jlookupD m "model" .null
      | _ => .null
    else .null
  let usage : Option JValue :=
    match jlookup e "usage" with
    | some u => some u
    | none =>
        if isAssistant e then
          match jlookup e "message" with
          | some (.obj m) => jlookup m "usage"
          | _ => none
        else none
  match usage with
  | some (.obj uf) =>
      if uf.isEmpty then ⟨.num 0, .num 0, .num 0, .num 0, model⟩
      else
        ⟨jlookupD uf "input_tokens" (.num 0),
         jlookupD uf "output_tokens" (.num 0),
         jlookupD uf "cache_read_input_tokens" (.num 0),
         jlookupD uf "cache_creation_input_tokens" (.num 0),
         model⟩
  | _ => ⟨.num 0, .num 0, .num 0, .num 0, model⟩

/-- Adding one passing record's counters and model to a bucket. -/
def Bucket.add (b : Bucket) (a o c cc : Int) (model : JValue) : Bucket :=
  { input_tokens := b.input_tokens + a
    output_tokens := b.output_tokens + o
    cache_read_tokens := b.cache_read_tokens + c
    cache_creation_tokens := b.cache_creation_tokens + cc
    models_used := if truthy model then insertModel b.models_used model else b.models_used }

/-- The per-line body of `process_jsonl_file` (lines 104-140): skip
unparseable lines and non-dict roots; skip records with a falsy
`timestamp`; extract the counters; `sum(...)` raises `TypeError` on a
non-numeric counter (caught: line skipped with nothing mutated); skip when
the sum is zero; otherwise add the counters into the date's bucket and the
truthy model into its model set. -/
def process_line (daily : Daily) (l : Option JValue) : Daily :=
  match l with
  | some (.obj e) =>
      let ts := jlookupD e "timestamp" .null
      if truthy ts then
        let dk := parse_timestamp ts
        let t := extract_tokens_from_entry e
        match asNum t.input_tokens, asNum t.output_tokens,
            asNum t.cache_read_tokens, asNum t.cache_creation_tokens with
        | some a, some o, some c, some cc =>
            if a + o + c + cc = 0 then daily
            else fun k => if k = dk then (daily dk).add a o c cc t.model else daily k
        | _, _, _, _ => daily
      else daily
  | _ => daily

/-- `process_jsonl_file` (lines 93-142) on a file's parsed lines. -/
def process_jsonl_file (ls : List (Option JValue)) : Daily :=
  ls.foldl process_line Daily.empty

/-- The cross-file merge of `main` (lines 178-183): counters add, model
sets union, per date. -/
def merge (x y : Daily) : Daily := fun d =>
  { input_tokens := (x d).input_tokens + (y d).input_tokens
    output_tokens := (x d).output_tokens + (y d).output_tokens
    cache_read_tokens := (x d).cache_read_tokens + (y d).cache_read_tokens
    cache_creation_tokens := (x d).cache_creation_tokens + (y d).cache_creation_tokens
    models_used := unionModels (x d).models_used (y d).models_used }

/-- The record has a (truthy) timestamp. -/
def has_timestamp (e : List (String × JValue)) : Bool :=
  truthy (jlookupD e "timestamp" .null)

/-- The date bucket the record falls into. -/
def date_key_of (e : List (String × JValue)) : String :=
  parse_timestamp (jlookupD e "timestamp" .null)

/-- Provider A's usable-data check: the four extracted counters are summable
and their sum is nonzero. -/
def passes_check (e : List (String × JValue)) : Bool :=
  let t := extract_tokens_from_entry e
  match asNum t.input_tokens, asNum t.output_tokens,
      asNum t.cache_read_tokens, asNum t.cache_creation_tokens with
  | some a, some o, some c, some cc => !(a + o + c + cc == 0)
  | _, _, _, _ => false

/-- The four numeric counters of a record (zero placeholders where the raw
value is non-numeric; only used under `passes_check`). -/
def counters_of (e : List (String × JValue)) : Int × Int × Int × Int :=
  let t := extract_tokens_from_entry e
  ((asNum t.input_tokens).getD 0, (asNum t.output_tokens).getD 0,
   (asNum t.cache_read_tokens).getD 0, (asNum t.cache_creation_tokens).getD 0)

/-- The model value a record would add (`JValue.null` when none). -/
def model_of (e : List (String × JValue)) : JValue :=
  (extract_tokens_from_entry e).model

/-- What one parsed line contributes to date `d`: its four counters when it
is a record with a timestamp that passes the check and falls on `d`, and
zero otherwise. -/
def contrib (d : String) (l : Option JValue) : Int × Int × Int × Int :=
  match l with
  | some (.obj e) =>
      if has_timestamp e && passes_check e && (date_key_of e == d) then counters_of e
      else (0, 0, 0, 0)
  | _ => (0, 0, 0, 0)

/-- The update `process_line` performs on a passing record. -/
def apply_update (daily : Daily) (e : List (String × JValue)) : Daily :=
  let dk := date_key_of e
  let c := counters_of e
  fun k => if k = dk then (daily dk).add c.1 c.2.1 c.2.2.1 c.2.2.2 (model_of e) else daily k

end Claude

/-! ## Provider B: `qwen_tokens_daily.py` -/

namespace Qwen

/-- One `daily[date]` bucket: the five counters and the set of models. -/
structure Bucket where
  prompt_tokens : Int
  candidates_tokens : Int
  thoughts_tokens : Int
  cached_tokens : Int
  total_tokens : Int
  models_used : List JValue

/-- The `defaultdict` default. -/
def Bucket.empty : Bucket := ⟨0, 0, 0, 0, 0, []⟩

/-- The per-date aggregate mapping. -/
def Daily : Type := String → Bucket

/-- The zero-initialized aggregate. -/
def Daily.empty : Daily := fun _ => Bucket.empty

/-- The result of `extract_tokens_from_entry`: the five counters exactly
as read from `usageMetadata` (any JSON value; defaults are the int `0`),
plus the model. -/
structure Tokens where
  prompt_tokens : JValue
  candidates_tokens : JValue
  thoughts_tokens : JValue
  cached_tokens : JValue
  total_tokens : JValue
  model : JValue

/-- `extract_tokens_from_entry` (lines 42-66): the model comes from the
top-level `model` key of an assistant entry; the counters are read from
`usageMetadata` when it is a dict (default `{}`). -/
def extract_tokens_from_entry (e : List (String × JValue)) : Tokens :=
  let model : JValue := if isAssistant e then jlookupD e "model" .null else .null
  match jlookupD e "usageMetadata" (.obj []) with
  | .obj uf =>
      ⟨jlookupD uf "promptTokenCount" (.num 0),
       jlookupD uf "candidatesTokenCount" (.num 0),
       jlookupD uf "thoughtsTokenCount" (.num 0),
       jlookupD uf "cachedContentTokenCount" (.num 0),
       jlookupD uf "totalTokenCount" (.num 0),
       model⟩
  | _ => ⟨.num 0, .num 0, .num 0, .num 0, .num 0, model⟩

/-- The five sequential `+=` statements of `process_jsonl_file` (lines
100-104) followed by the model insertion (lines 106-107).  A non-numeric
counter raises `TypeError` at its own `+=`; the bare `except` then skips
the rest of the line, so the updates made so far survive (the counters are
added in source order) and the model is only inserted when all five
succeed. -/
def Bucket.add_entry (b : Bucket) (t : Tokens) : Bucket :=
  match asNum t.prompt_tokens with
  | none => b
  | some p =>
      match asNum t.candidates_tokens with
      | none => { b with prompt_tokens := b.prompt_tokens + p }
      | some c =>
          match asNum t.thoughts_tokens with
          | none => { b with prompt_tokens := b.prompt_tokens + p,
                             candidates_tokens := b.candidates_tokens + c }
          | some th =>
              match asNum t.cached_tokens with
              | none => { b with prompt_tokens := b.prompt_tokens + p,
                                 candidates_tokens := b.candidates_tokens + c,
                                 thoughts_tokens := b.thoughts_tokens + th }
              | some ca =>
                  match asNum t.total_tokens with
                  | none => { b with prompt_tokens := b.prompt_tokens + p,
                                     candidates_tokens := b.candidates_tokens + c,
                                     thoughts_tokens := b.thoughts_tokens + th,
                                     cached_tokens := b.cached_tokens + ca }
                  | some tt =>
                      { prompt_tokens := b.prompt_tokens + p
                        candidates_tokens := b.candidates_tokens + c
                        thoughts_tokens := b.thoughts_tokens + th
                        cached_tokens := b.cached_tokens + ca
                        total_tokens := b.total_tokens + tt
                        models_used :=
                          if truthy t.model then insertModel b.models_used t.model
                          else b.models_used }

/-- The per-line body of `process_jsonl_file` (lines 81-110): skip
unparseable lines, non-dict roots and records with a falsy `timestamp`;
skip when the reported total compares equal to `0`; otherwise perform the
sequential bucket update. -/
def process_line (daily : Daily) (l : Option JValue) : Daily :=
  match l with
  | some (.obj e) =>
      let ts := jlookupD e "timestamp" .null
      if truthy ts then
        let dk := parse_timestamp ts
        let t := extract_tokens_from_entry e
        if pyEqZero t.total_tokens then daily
        else fun k => if k = dk then (daily dk).add_entry t else daily k
      else daily
  | _ => daily

/-- `process_jsonl_file` (lines 69-112) on a file's parsed lines. -/
def process_jsonl_file (ls : List (Option JValue)) : Daily :=
  ls.foldl process_line Daily.empty

/-- The record has a (truthy) timestamp. -/
def has_timestamp (e : List (String × JValue)) : Bool :=
  truthy (jlookupD e "timestamp" .null)

/-- The date bucket the record falls into. -/
def date_key_of (e : List (String × JValue)) : String :=
  parse_timestamp (jlookupD e "timestamp" .null)

/-- Provider B's usable-data check: the reported `totalTokenCount` does not
compare equal to `0`. -/
def passes_check (e : List (String × JValue)) : Bool :=
  !(pyEqZero (extract_tokens_from_entry e).total_tokens)

/-- The model value a record would add. -/
def model_of (e : List (String × JValue)) : JValue :=
  (extract_tokens_from_entry e).model

/-- All five counters of the record are numeric, so its bucket update runs
to completion (including the model insertion). -/
def fully_numeric (e : List (String × JValue)) : Bool :=
  let t := extract_tokens_from_entry e
  (asNum t.prompt_tokens).isSome && (asNum t.candidates_tokens).isSome &&
    (asNum t.thoughts_tokens).isSome && (asNum t.cached_tokens).isSome &&
    (asNum t.total_tokens).isSome

/-- The update `process_line` performs on a record that passes the check. -/
def apply_update (daily : Daily) (e : List (String × JValue)) : Daily :=
  let dk := date_key_of e
  fun k => if k = dk then (daily dk).add_entry (extract_tokens_from_entry e) else daily k

end Qwen

/-! ## Magnitude formatting and renderers -/

/-- Decimal digits of `n`, most significant first (fuel-based so that it
reduces in the kernel). -/
def natDigitsAux : Nat → Nat → List Char
  | 0, _ => []
  | fuel + 1, n =>
      if n < 10 then [digitChar n]
      else natDigitsAux fuel (n / 10) ++ [digitChar (n % 10)]

/-- Decimal digits of `n`, most significant first. -/
def natDigits (n : Nat) : List Char := natDigitsAux (n + 1) n

/-- Insert `,` after every third character of a reversed digit list. -/
def group3rev : List Char → List Char
  | a :: b :: c :: d :: rest => a :: b :: c :: ',' :: group3rev (d :: rest)
  | l => l

/-- Python `f"{v:,}"` for an int: decimal digits with thousands
separators. -/
def pyThousands (v : Int) : String :=
  (if v < 0 then "-" else "") ++ ⟨(group3rev (natDigits v.natAbs).reverse).reverse⟩

/-- Round-half-even of the rational `a / b` for `b > 0`.  CPython's
`f"{x:.2f}"` rounds the binary double nearest to `v / 10**k` half-even;
this model rounds the exact rational instead.  The two agree except when
the double rounding of `v / 10**k` crosses a `.xx5` tie boundary, and no
claimed value is affected.  (Python's `int`-to-`float` overflow for values
beyond about `1.8e308` is likewise outside the model.) -/
def roundHalfEven (a b : Int) : Int :=
  let q := a.fdiv b
  let r := a - q * b
  if 2 * r < b then q
  else if 2 * r > b then q + 1
  else if q % 2 = 0 then q else q + 1

/-- A fixed two-decimal suffixed rendering of `v / scale10000ths`:
`hundredths = roundHalfEven(v, scale/100)` split as `intpart.2digits`. -/
def twoDecimal (v divisorOver100 : Int) : String :=
  let h := (roundHalfEven v divisorOver100).toNat
  ⟨natDigits (h / 100)⟩ ++ "." ++ ⟨pad2 (h % 100)⟩

/-- `format_tokens` (`claude_tokens_daily.py` lines 250-257 and
`qwen_tokens_daily.py` lines 115-122, textually identical):
`f"{value/1_000_000:.2f}M"` for a value of at least one million,
`f"{value/1_000:.2f}K"` for at least one thousand, else `f"{value:,}"`. -/
def format_tokens (value : Int) : String :=
  if value ≥ 1000000 then twoDecimal value 10000 ++ "M"
  else if value ≥ 1000 then twoDecimal value 10 ++ "K"
  else pyThousands value

namespace Claude

/-- One element of the structured output's `dates` list (`main` lines
197-219).  The `models` list is sorted for presentation in the script;
the sort is not modelled. -/
structure DateEntry where
  date : String
  inputTokens : Int
  outputTokens : Int
  cacheReadTokens : Int
  cacheCreationTokens : Int
  totalTokens : Int
  totalTokensFormatted : String
  models : List JValue

/-- The structured (JSON) renderer's per-date entry. -/
def json_date_entry (agg : Daily) (d : String) : DateEntry :=
  { date := d
    inputTokens := (agg d).input_tokens
    outputTokens := (agg d).output_tokens
    cacheReadTokens := (agg d).cache_read_tokens
    cacheCreationTokens := (agg d).cache_creation_tokens
    totalTokens := (agg d).input_tokens + (agg d).output_tokens
      + (agg d).cache_read_tokens + (agg d).cache_creation_tokens
    totalTokensFormatted := format_tokens ((agg d).input_tokens + (agg d).output_tokens
      + (agg d).cache_read_tokens + (agg d).cache_creation_tokens)
    models := (agg d).models_used }

/-- The text renderer's per-date total (`main` lines 228-233). -/
def text_total (agg : Daily) (d : String) : Int :=
  (agg d).input_tokens + (agg d).output_tokens
    + (agg d).cache_read_tokens + (agg d).cache_creation_tokens

/-- The string the text renderer prints for the total (`main` line 239). -/
def text_total_formatted (agg : Daily) (d : String) : String :=
  format_tokens (text_total agg d)

end Claude

namespace Qwen

/-- One element of the structured output's `dates` list (`main` lines
178-190). -/
structure DateEntry where
  date : String
  promptTokens : Int
  candidatesTokens : Int
  thoughtsTokens : Int
  cachedTokens : Int
  totalTokens : Int
  totalTokensFormatted : String
  models : List JValue

/-- The structured (JSON) renderer's per-date entry: `totalTokens` is the
aggregated reported counter itself. -/
def json_date_entry (agg : Daily) (d : String) : DateEntry :=
  { date := d
    promptTokens := (agg d).prompt_tokens
    candidatesTokens := (agg d).candidates_tokens
    thoughtsTokens := (agg d).thoughts_tokens
    cachedTokens := (agg d).cached_tokens
    totalTokens := (agg d).total_tokens
    totalTokensFormatted := format_tokens (agg d).total_tokens
    models := (agg d).models_used }

/-- The text renderer's per-date total (`main` line 203): the reported
counter, read as-is. -/
def text_total (agg : Daily) (d : String) : Int := (agg d).total_tokens

/-- The string the text renderer prints for the total (`main` line 210). -/
def text_total_formatted (agg : Daily) (d : String) : String :=
  format_tokens (text_total agg d)

/-- A demonstration aggregate whose reported total differs from the sum of
the other four counters. -/
def demo_daily : Daily := fun _ =>
  { prompt_tokens := 1, candidates_tokens := 1, thoughts_tokens := 0,
    cached_tokens := 0, total_tokens := 5, models_used := [] }

end Qwen

/-! ## Log formatter: `format_log.py`

`parse_log_line` receives the raw line; `json.loads` is modelled by a
recursive-descent parser over the JSON grammar (strings with the standard
escapes, integers, `true`/`false`/`null`, arrays, objects with last-wins
duplicate keys).  Float literals and surrogate-pair `\u` escapes are not
modelled (`loadsChars` fails there; no claim exercises them). -/

namespace FormatLog

/-- Python `str.strip()` whitespace (ASCII subset). -/
def pyWs (c : Char) : Bool :=
  c = ' ' ∨ c = '\t' ∨ c = '\n' ∨ c = '\r' ∨ c = '\x0b' ∨ c = '\x0c'

/-- Python `line.strip()`. -/
def pyStripChars (cs : List Char) : List Char :=
  ((cs.dropWhile pyWs).reverse.dropWhile pyWs).reverse

/-- JSON whitespace. -/
def jWs (c : Char) : Bool := c = ' ' ∨ c = '\t' ∨ c = '\n' ∨ c = '\r'

/-- Skip JSON whitespace. -/
def jskipWs (cs : List Char) : List Char := cs.dropWhile jWs

/-- Hexadecimal digit value. -/
def hexVal (c : Char) : Option Nat :=
  if '0' ≤ c ∧ c ≤ '9' then some (c.toNat - 48)
  else if 'a' ≤ c ∧ c ≤ 'f' then some (c.toNat - 87)
  else if 'A' ≤ c ∧ c ≤ 'F' then some (c.toNat - 55)
  else none

/-- The body of a JSON string literal after the opening quote: decode the
standard escapes, reject raw control characters.  (A `\u` escape decodes to
its code point via `Char.ofNat`; lone surrogates are not representable and
no claim exercises them.) -/
def parseJStringAux : List Char → List Char → Option (List Char × List Char)
  | _, [] => none
  | acc, c :: rest =>
      if c = '"' then some (acc.reverse, rest)
      else if c = '\\' then
        match rest with
        | [] => none
        | e :: rest2 =>
            if e = '"' then parseJStringAux ('"' :: acc) rest2
            else if e = '\\' then parseJStringAux ('\\' :: acc) rest2
            else if e = '/' then parseJStringAux ('/' :: acc) rest2
            else if e = 'b' then parseJStringAux ('\x08' :: acc) rest2
            else if e = 'f' then parseJStringAux ('\x0c' :: acc) rest2
            else if e = 'n' then parseJStringAux ('\n' :: acc) rest2
            else if e = 'r' then parseJStringAux ('\r' :: acc) rest2
            else if e = 't' then parseJStringAux ('\t' :: acc) rest2
            else if e = 'u' then
              match rest2 with
              | h1 :: h2 :: h3 :: h4 :: rest3 =>
                  match hexVal h1, hexVal h2, hexVal h3, hexVal h4 with
                  | some a, some b, some c2, some d =>
                      parseJStringAux
                        (Char.ofNat (4096 * a + 256 * b + 16 * c2 + d) :: acc) rest3
                  | _, _, _, _ => none
              | _ => none
            else none
      else if c.toNat < 32 then none
      else parseJStringAux (c :: acc) rest

/-- The numeric value of a digit string. -/
def natOfDigits (ds : List Char) : Nat :=
  ds.foldl (fun acc d => acc * 10 + ((digitVal d).getD 0)) 0

/-- A JSON integer literal (floats are outside the model: a fractional or
exponent part makes the parse fail). -/
def parseJNumber (cs : List Char) : Option (JValue × List Char) :=
  let p := match cs with
    | '-' :: r => (true, r)
    | _ => (false, cs)
  let ds := p.2.takeWhile (fun c => (digitVal c).isSome)
  let rest := p.2.dropWhile (fun c => (digitVal c).isSome)
  if ds.isEmpty then none
  else if 1 < ds.length ∧ ds.head? = some '0' then none
  else
    let v : JValue := .num (if p.1 then -(natOfDigits ds : Int) else (natOfDigits ds : Int))
    match rest with
    | c :: _ => if c = '.' ∨ c = 'e' ∨ c = 'E' then none else some (v, rest)
    | [] => some (v, [])

/-- Python `d[k] = v`: replace in place or append (dict insertion order). -/
def upsertField : List (String × JValue) → String → JValue → List (String × JValue)
  | [], k, v => [(k, v)]
  | (k0, v0) :: rest, k, v =>
      if k0 = k then (k0, v) :: rest else (k0, v0) :: upsertField rest k v

mutual

/-- A JSON value at the head of the input (whitespace already skipped). -/
def parseJValue : Nat → List Char → Option (JValue × List Char)
  | 0, _ => none
  | fuel + 1, cs =>
      match cs with
      | [] => none
      | c :: rest =>
          if c = '\x7b' then parseJObjectFirst fuel (jskipWs rest)
          else if c = '[' then parseJArrayFirst fuel (jskipWs rest)
          else if c = '"' then
            match parseJStringAux [] rest with
            | some (s, r) => some (.str ⟨s⟩, r)
            | none => none
          else if c = 't' then
            match rest with
            | 'r' :: 'u' :: 'e' :: r => some (.bool true, r)
            | _ => none
          else if c = 'f' then
            match rest with
            | 'a' :: 'l' :: 's' :: 'e' :: r => some (.bool false, r)
            | _ => none
          else if c = 'n' then
            match rest with
            | 'u' :: 'l' :: 'l' :: r => some (.null, r)
            | _ => none
          else parseJNumber (c :: rest)

/-- After `{`: either `}` or the first `"key": value` pair. -/
def parseJObjectFirst : Nat → List Char → Option (JValue × List Char)
  | 0, _ => none
  | fuel + 1, cs =>
      match cs with
      | '\x7d' :: r => some (.obj [], r)
      | '"' :: r =>
          match parseJStringAux [] r with
          | some (k, r2) =>
              match jskipWs r2 with
              | ':' :: r3 =>
                  match parseJValue fuel (jskipWs r3) with
                  | some (v, r4) => parseJObjectRest fuel (jskipWs r4) (upsertField [] ⟨k⟩ v)
                  | none => none
              | _ => none
          | none => none
      | _ => none

/-- After a pair: `,` and another pair, or `}`. -/
def parseJObjectRest : Nat → List Char → List (String × JValue) → Option (JValue × List Char)
  | 0, _, _ => none
  | fuel + 1, cs, acc =>
      match cs with
      | '\x7d' :: r => some (.obj acc, r)
      | ',' :: r =>
          match jskipWs r with
          | '"' :: r2 =>
              match parseJStringAux [] r2 with
              | some (k, r3) =>
                  match jskipWs r3 with
                  | ':' :: r4 =>
                      match parseJValue fuel (jskipWs r4) with
                      | some (v, r5) => parseJObjectRest fuel (jskipWs r5) (upsertField acc ⟨k⟩ v)
                      | none => none
                  | _ => none
              | none => none
          | _ => none
      | _ => none

/-- After `[`: either `]` or the first element. -/
def parseJArrayFirst : Nat → List Char → Option (JValue × List Char)
  | 0, _ => none
  | fuel + 1, cs =>
      match cs with
      | ']' :: r => some (.arr [], r)
      | _ =>
          match parseJValue fuel cs with
          | some (v, r) => parseJArrayRest fuel (jskipWs r) [v]
          | none => none

/-- After an element: `,` and another element, or `]`. -/
def parseJArrayRest : Nat → List Char → List JValue → Option (JValue × List Char)
  | 0, _, _ => none
  | fuel + 1, cs, acc =>
      match cs with
      | ']' :: r => some (.arr acc.reverse, r)
      | ',' :: r =>
          match parseJValue fuel (jskipWs r) with
          | some (v, r2) => parseJArrayRest fuel (jskipWs r2) (v :: acc)
          | none => none
      | _ => none

end

/-- `json.loads` on a whole string (must consume the input). -/
def loadsChars (cs : List Char) : Option JValue :=
  match parseJValue (2 * cs.length + 2) (jskipWs cs) with
  | some (v, rest) => if (jskipWs rest).isEmpty then some v else none
  | none => none

/-- Hexadecimal digit character. -/
def hexChar : Nat → Char
  | 0 => '0'
  | 1 => '1'
  | 2 => '2'
  | 3 => '3'
  | 4 => '4'
  | 5 => '5'
  | 6 => '6'
  | 7 => '7'
  | 8 => '8'
  | 9 => '9'
  | 10 => 'a'
  | 11 => 'b'
  | 12 => 'c'
  | 13 => 'd'
  | 14 => 'e'
  | _ => 'f'

/-- Four-digit hexadecimal rendering. -/
def toHex4 (n : Nat) : List Char :=
  [hexChar (n / 4096 % 16), hexChar (n / 256 % 16), hexChar (n / 16 % 16), hexChar (n % 16)]

/-- One character of a `json.dumps` string literal (`ensure_ascii`
default: non-ASCII code points become `\uXXXX`; the surrogate-pair form
for astral code points is not modelled). -/
def escapeJChar (c : Char) : List Char :=
  if c = '"' then ['\\', '"']
  else if c = '\\' then ['\\', '\\']
  else if c = '\n' then ['\\', 'n']
  else if c = '\r' then ['\\', 'r']
  else if c = '\t' then ['\\', 't']
  else if c = '\x08' then ['\\', 'b']
  else if c = '\x0c' then ['\\', 'f']
  else if c.toNat < 32 ∨ 126 < c.toNat then '\\' :: 'u' :: toHex4 c.toNat
  else [c]

/-- A `json.dumps` string literal. -/
def dquote (s : String) : String :=
  ⟨'"' :: s.data.foldr (fun c acc => escapeJChar c ++ acc) ['"']⟩

/-- Python `repr` of an int. -/
def intRepr (n : Int) : String :=
  (if n < 0 then "-" else "") ++ ⟨natDigits n.natAbs⟩

mutual

/-- `json.dumps` with default separators. -/
def dumps : JValue → String
  | .null => "null"
  | .bool true => "true"
  | .bool false => "false"
  | .num n => intRepr n
  | .str s => dquote s
  | .arr xs => "[" ++ dumpsList xs ++ "]"
  | .obj fs => "\x7b" ++ dumpsFields fs ++ "\x7d"

def dumpsList : List JValue → String
  | [] => ""
  | [x] => dumps x
  | x :: xs => dumps x ++ ", " ++ dumpsList xs

def dumpsFields : List (String × JValue) → String
  | [] => ""
  | [(k, v)] => dquote k ++ ": " ++ dumps v
  | (k, v) :: fs => dquote k ++ ": " ++ dumps v ++ ", " ++ dumpsFields fs

end

/-- `message.replace("\\n", " ")`: each two-character backslash-`n`
sequence becomes one space (left to right, non-overlapping). -/
def replEscN : List Char → List Char
  | '\\' :: 'n' :: rest => ' ' :: replEscN rest
  | c :: rest => c :: replEscN rest
  | [] => []

/-- `message.replace("\\n", " ").replace("\n", " ")` (lines 161 and 167). -/
def replaceNewlinesStr (s : String) : String :=
  ⟨(replEscN s.data).map (fun c => if c = '\n' then ' ' else c)⟩

/-- `\s` of Python `re` (ASCII subset). -/
def reWs (c : Char) : Bool :=
  c = ' ' ∨ c = '\t' ∨ c = '\n' ∨ c = '\r' ∨ c = '\x0b' ∨ c = '\x0c'

/-- The regex `"subsystem"\s*:\s*"([^"]+)"` anchored at the head of the
input: the captured group on success. -/
def matchSubsystemAt (cs : List Char) : Option (List Char) :=
  match cs with
  | '"' :: 's' :: 'u' :: 'b' :: 's' :: 'y' :: 's' :: 't' :: 'e' :: 'm' :: '"' :: rest =>
      match rest.dropWhile reWs with
      | ':' :: r2 =>
          match r2.dropWhile reWs with
          | '"' :: r4 =>
              let grp := r4.takeWhile (fun c => !(c == '"'))
              if grp.isEmpty then none
              else
                match r4.drop grp.length with
                | '"' :: _ => some grp
                | _ => none
          | _ => none
      | _ => none
  | _ => none

/-- `re.search` with the pattern above: the first position (left to right)
where it matches (line 129). -/
def reSearchSubsystem : List Char → Option (List Char)
  | [] => none
  | c :: rest =>
      match matchSubsystemAt (c :: rest) with
      | some g => some g
      | none => reSearchSubsystem rest

/-- `s.startswith("http")`. -/
def startsWithHttp (cs : List Char) : Bool :=
  match cs with
  | 'h' :: 't' :: 't' :: 'p' :: _ => true
  | _ => false

/-- Python `"/" in s`. -/
def hasSlash (cs : List Char) : Bool := cs.any (fun c => c == '/')

/-- `s.split("/")[0]`. -/
def firstSeg (cs : List Char) : List Char := cs.takeWhile (fun c => !(c == '/'))

/-- Python `" " in s`. -/
def hasSpace (cs : List Char) : Bool := cs.any (fun c => c == ' ')

/-- Head character test. -/
def headIs (c : Char) (cs : List Char) : Bool :=
  match cs with
  | d :: _ => d == c
  | [] => false

/-- Last character test. -/
def lastIs (c : Char) (cs : List Char) : Bool :=
  match cs.getLast? with
  | some d => d == c
  | none => false

/-- A Python exception escaping `parse_log_line`. -/
inductive PyErr where
  | attributeError
  | typeError
  deriving DecidableEq, Repr

/-- The dict returned by `parse_log_line` (lines 169-175). -/
structure ParsedLogEntry where
  time : JValue
  level : JValue
  module : JValue
  message : String
  meta : JValue

/-- The plain-string heuristics of lines 127-148 (reached when
`json.loads(msg_0)` raises `JSONDecodeError`): the recovered
`(subsystem, message)` pair. -/
def heuristic (s : String) : JValue × String :=
  let c0 := s.data
  if headIs '\x7b' c0 then
    match reSearchSubsystem c0 with
    | some g => (.str ⟨g⟩, "")
    | none => (.str "", "")
  else if headIs '"' c0 && lastIs '"' c0 then
    let inner := (c0.drop 1).dropLast
    if hasSlash inner && !startsWithHttp inner && !hasSpace (firstSeg inner) then
      (.str ⟨inner⟩, "")
    else (.str "", ⟨inner⟩)
  else if hasSlash c0 && !startsWithHttp c0 then
    let fp := firstSeg c0
    if !hasSpace fp && fp.length < 30 then (.str s, "")
    else (.str "", s)
  else (.str "", s)

/-- Python `"/" in subsystem` for an arbitrary value: strings search for
the character, lists and dicts for an equal element/key, other types raise
`TypeError`. -/
def containsSlash (v : JValue) : Except PyErr Bool :=
  match v with
  | .str s => .ok (hasSlash s.data)
  | .arr xs => .ok (xs.any (fun x => JValue.beq x (.str "/")))
  | .obj fs => .ok (fs.any (fun kv => kv.1 == "/"))
  | _ => .error .typeError

/-- The module extraction of lines 150-155: the subsystem's segment before
its first `/` (calling `.split` on a non-string raises
`AttributeError`). -/
def moduleOf (subsystem : JValue) : Except PyErr JValue :=
  if truthy subsystem then
    match containsSlash subsystem with
    | .error e => .error e
    | .ok true =>
        match subsystem with
        | .str ss => .ok (.str ⟨firstSeg ss.data⟩)
        | _ => .error .attributeError
    | .ok false => .ok subsystem
  else .ok (.str "")

/-- `parse_log_line` (lines 93-175).  `Except.error` models an exception
escaping the function: `data.get` on a non-dict root, `.get` on a non-dict
`_meta`, `sub_data.get` when `json.loads(msg_0)` yields a non-dict, and
the `"/" in subsystem` / `.split` steps on unusual subsystem values.
`Except.ok none` models the `return None` for blank or unparseable lines.
The dead newline-cleanup of lines 163-167 (guarded by `if not message:`,
so it only ever runs on the empty string) is reproduced as in the
source. -/
def parse_log_line (line : String) : Except PyErr (Option ParsedLogEntry) :=
  let cs := pyStripChars line.data
  if cs.isEmpty then .ok none
  else
    match loadsChars cs with
    | none => .ok none
    | some (.obj fields) =>
        let timestamp := jlookupD fields "time" (.str "")
        match jlookupD fields "_meta" (.obj []) with
        | .obj mf =>
            let level := jlookupD mf "logLevelName" (.str "INFO")
            let msg0 := jlookupD fields "0" (.str "")
            let msg1 := jlookupD fields "1" (.str "")
            let meta := jlookupD fields "_meta" (.obj [])
            let step1 : Except PyErr (JValue × String) :=
              match msg0 with
              | .str s =>
                  match loadsChars s.data with
                  | some (.obj sd) => .ok (jlookupD sd "subsystem" (.str ""), "")
                  | some _ => .error .attributeError
                  | none => .ok (heuristic s)
              | _ => .ok (.str "", "")
            match step1 with
            | .error err => .error err
            | .ok sm =>
                match moduleOf sm.1 with
                | .error err => .error err
                | .ok mdl =>
                    let message1 :=
                      if truthy msg1 then
                        replaceNewlinesStr (match msg1 with | .str t => t | v => dumps v)
                      else sm.2
                    let message2 :=
                      if message1 = "" then replaceNewlinesStr message1 else message1
                    .ok (some ⟨timestamp, level, mdl, message2, meta⟩)
        | _ => .error .attributeError
    | some _ => .error .attributeError

/-- Days since the civil epoch 1970-01-01 (proleptic Gregorian). -/
def daysFromCivil (y : Int) (m d : Nat) : Int :=
  let y2 := if m ≤ 2 then y - 1 else y
  let era := y2.fdiv 400
  let yoe := (y2 - era * 400).toNat
  let mp := if 2 < m then m - 3 else m + 9
  let doy := (153 * mp + 2) / 5 + d - 1
  let doe := yoe * 365 + yoe / 4 - yoe / 100 + doy
  era * 146097 + (doe : Int) - 719468

/-- The civil date of a day number (inverse of `daysFromCivil`). -/
def civilFromDays (z0 : Int) : Int × Nat × Nat :=
  let z := z0 + 719468
  let era := z.fdiv 146097
  let doe := (z - era * 146097).toNat
  let yoe := (doe - doe / 1460 + doe / 36524 - doe / 146096) / 365
  let y := (yoe : Int) + era * 400
  let doy := doe - (365 * yoe + yoe / 4 - yoe / 100)
  let mp := (5 * doy + 2) / 153
  let d := doy - (153 * mp + 2) / 5 + 1
  let m := if mp < 10 then mp + 3 else mp - 9
  (if m ≤ 2 then y + 1 else y, m, d)

/-- `convert_to_gmt8` (lines 79-90): parse the timestamp with `Z` replaced
by `+00:00`, shift with `astimezone(timezone(timedelta(hours=8)))`, and
render to whole seconds; any exception returns the input unchanged.
`astimezone` on a naive datetime uses the process's local timezone, which
is modelled by the explicit `localOffsetMinutes` parameter (an aware
timestamp makes the result independent of it); a shifted datetime outside
years 1-9999 raises `OverflowError`, caught like any other exception. -/
def convert_to_gmt8 (localOffsetMinutes : Int) (timestamp_str : String) : String :=
  match fromisoformat (replaceZ timestamp_str.data) with
  | none => timestamp_str
  | some dt =>
      let off := dt.tzOffsetMinutes.getD localOffsetMinutes
      let totalMin : Int :=
        daysFromCivil (dt.date.year : Int) dt.date.month dt.date.day * 1440
          + dt.hour * 60 + dt.minute - off + 480
      let days := totalMin.fdiv 1440
      let rem := (totalMin - days * 1440).toNat
      let c := civilFromDays days
      if 1 ≤ c.1 ∧ c.1 ≤ 9999 then
        ⟨pad4 c.1.toNat ++ '-' :: pad2 c.2.1 ++ '-' :: pad2 c.2.2
          ++ ' ' :: pad2 (rem / 60) ++ ':' :: pad2 (rem % 60) ++ ':' :: pad2 dt.second⟩
      else timestamp_str

end FormatLog

/-- The string the normalizer returns for an attempt's result: the
`strftime("%Y-%m-%d")` date on success, `"unknown"` on failure. -/
def dateOrUnknown : Option PyDate → String
  | some d => pyDateString d
  | none => "unknown"

/-- A canonical `YYYY-MM-DDTHH:MM:SS[.fff]Z` timestamp, all fields
zero-padded. -/
def canonicalTsChars (y mo d h mi s : Nat) (frac : Option Nat) : List Char :=
  pad4 y ++ '-' :: (pad2 mo ++ '-' :: (pad2 d ++ 'T' ::
    (pad2 h ++ ':' :: (pad2 mi ++ ':' :: (pad2 s ++
      (match frac with
       | none => ['Z']
       | some f => '.' :: (pad3 f ++ ['Z'])))))))

namespace Claude

/-- Whether one parsed line would put model value `m` into date `d`'s model
set: a record with a timestamp that passes the check, falls on `d`, and
carries truthy model `m`. -/
def model_contrib (d : String) (m : JValue) (l : Option JValue) : Bool :=
  match l with
  | some (.obj e) =>
      has_timestamp e && passes_check e && (date_key_of e == d)
        && truthy (model_of e) && JValue.beq (model_of e) m
  | _ => false

end Claude

namespace Qwen

/-- Whether one parsed line would put model value `m` into date `d`'s model
set (the model insertion additionally requires all five `+=` to have
succeeded). -/
def model_contrib (d : String) (m : JValue) (l : Option JValue) : Bool :=
  match l with
  | some (.obj e) =>
      has_timestamp e && passes_check e && fully_numeric e && (date_key_of e == d)
        && truthy (model_of e) && JValue.beq (model_of e) m
  | _ => false

end Qwen

/-! ## Supporting lemmas -/

mutual

theorem JValue.beq_iff : ∀ a b : JValue, JValue.beq a b = true ↔ a = b
  | .null, b => by cases b <;> simp [JValue.beq]
  | .bool a, b => by cases b <;> simp [JValue.beq]
  | .num a, b => by cases b <;> simp [JValue.beq]
  | .str a, b => by cases b <;> simp [JValue.beq]
  | .arr xs, b => by
      cases b <;> simp [JValue.beq]
      exact JValue.beqList_iff xs _
  | .obj xs, b => by
      cases b <;> simp [JValue.beq]
      exact JValue.beqFields_iff xs _

theorem JValue.beqList_iff : ∀ xs ys : List JValue, JValue.beqList xs ys = true ↔ xs = ys
  | [], ys => by cases ys <;> simp [JValue.beqList]
  | x :: xs, ys => by
      cases ys with
      | nil => simp [JValue.beqList]
      | cons y ys =>
          simp [JValue.beqList, JValue.beq_iff x y, JValue.beqList_iff xs ys]

theorem JValue.beqFields_iff :
    ∀ xs ys : List (String × JValue), JValue.beqFields xs ys = true ↔ xs = ys
  | [], ys => by cases ys <;> simp [JValue.beqFields]
  | (k, v) :: xs, ys => by
      cases ys with
      | nil => simp [JValue.beqFields]
      | cons y ys =>
          obtain ⟨k2, v2⟩ := y
          simp [JValue.beqFields, JValue.beq_iff v v2, JValue.beqFields_iff xs ys]
          try tauto

end

theorem JValue.beq_refl (a : JValue) : JValue.beq a a = true := (JValue.beq_iff a a).mpr rfl

theorem memJ_append (m : JValue) (xs ys : List JValue) :
    memJ m (xs ++ ys) = (memJ m xs || memJ m ys) := by
  simp [memJ, List.any_append]

theorem memJ_insertModel (m x : JValue) (xs : List JValue) :
    memJ m (insertModel xs x) = (memJ m xs || JValue.beq x m) := by
  unfold insertModel
  by_cases h : memJ x xs = true
  · simp only [h, if_true]
    by_cases hxm : JValue.beq x m = true
    · have : x = m := (JValue.beq_iff x m).mp hxm
      subst this
      simp [h, hxm]
    · simp [Bool.eq_false_iff.mpr hxm]
  · simp only [Bool.not_eq_true] at h
    rw [h]
    simp [memJ_append, memJ]

theorem memJ_unionModels (m : JValue) (xs ys : List JValue) :
    memJ m (unionModels xs ys) = (memJ m xs || memJ m ys) := by
  induction ys generalizing xs with
  | nil => simp [unionModels, memJ]
  | cons y ys ih =>
      simp only [unionModels, List.foldl_cons] at *
      rw [ih, memJ_insertModel]
      simp [memJ, Bool.or_assoc, Bool.or_comm, Bool.or_left_comm]

/-! ## Claim theorems -/

/-- C7: applied to the line
`{"time":"2026-02-27T16:26:46.306Z","_meta":{"logLevelName":"ERROR"},"0":"gateway/canvas","1":"boom"}`
the Log Line Formatter produces module `"gateway"` (the subsystem's segment
before its first separator), level `"ERROR"`, message `"boom"`, and the
timestamp shifts to fixed UTC+8 truncated to whole seconds,
`"2026-02-28 00:26:46"`, independently of the process's local timezone. -/
theorem spec_c7 :
    FormatLog.parse_log_line
        "\x7b\"time\":\"2026-02-27T16:26:46.306Z\",\"_meta\":\x7b\"logLevelName\":\"ERROR\"\x7d,\"0\":\"gateway/canvas\",\"1\":\"boom\"\x7d"
      = .ok (some ⟨.str "2026-02-27T16:26:46.306Z", .str "ERROR", .str "gateway", "boom",
          .obj [("logLevelName", .str "ERROR")]⟩)
    ∧ ∀ localOffsetMinutes : Int,
        FormatLog.convert_to_gmt8 localOffsetMinutes "2026-02-27T16:26:46.306Z"
          = "2026-02-28 00:26:46" := by
  refine ⟨rfl, fun off => ?_⟩
  unfold FormatLog.convert_to_gmt8
  rw [show fromisoformat (replaceZ ("2026-02-27T16:26:46.306Z").data)
        = some ⟨⟨2026, 2, 27⟩, 16, 26, 46, 306000, some 0⟩ from rfl]
  simp only [Option.getD_some]
  rfl

/-- C8: evaluating `parse_log_line` at the failing input — a record whose
message comes from the first positional field and contains a newline.  The
second positional field's override (with newline cleanup, first conjunct)
works as claimed, but a message originating from field `"0"` keeps its
newline: the cleanup of lines 163-167 is guarded by `if not message:` so it
only ever runs on the empty string, while the code's own comments say it is
meant to clean the `msg_0`-derived message.  The claimed result would be
`"a b"`. -/
theorem spec_c8 :
    FormatLog.parse_log_line "\x7b\"0\": \"x\", \"1\": \"p\\nq\"\x7d"
      = .ok (some ⟨.str "", .str "INFO", .str "", "p q", .obj []⟩)
    ∧ FormatLog.parse_log_line "\x7b\"0\": \"a\\nb\"\x7d"
      = .ok (some ⟨.str "", .str "INFO", .str "", "a\nb", .obj []⟩)
    ∧ FormatLog.replaceNewlinesStr "a\nb" = "a b"
    ∧ ("a\nb" : String) ≠ "a b" :=
  ⟨rfl, rfl, rfl, by decide⟩

/-- C10 (counterexample): the line `{"_meta": 0}` is a valid-JSON object
line, yet `parse_log_line` raises (`data.get("_meta", {}).get(...)` on the
int `0`), so the per-line parser is not total on JSON-object lines as
claimed. -/
theorem spec_c10_counterexample :
    FormatLog.parse_log_line "\x7b\"_meta\": 0\x7d" = .error .attributeError
    ∧ FormatLog.loadsChars (FormatLog.pyStripChars ("\x7b\"_meta\": 0\x7d").data)
        = some (.obj [("_meta", .num 0)]) :=
  ⟨rfl, rfl⟩

/-- C3 (counterexample): on `"2026-01-01 00:00:00Z"` attempts (a) and (b)
fail (the `strptime` formats require a literal `T`) while attempt (c) —
`fromisoformat` after replacing `Z` with `+00:00` — succeeds with date
2026-01-01; the claim then requires `"2026-01-01"`, but the code returns
`"unknown"`: a `Z`-suffixed string never reaches attempt (c). -/
theorem spec_c3_counterexample :
    parse_timestamp (.str "2026-01-01 00:00:00Z") = "unknown"
    ∧ attemptA ("2026-01-01 00:00:00Z").data = none
    ∧ attemptB ("2026-01-01 00:00:00Z").data = none
    ∧ attemptC ("2026-01-01 00:00:00Z").data = some ⟨2026, 1, 1⟩
    ∧ dateOrUnknown (attemptC ("2026-01-01 00:00:00Z").data) = "2026-01-01"
    ∧ ("unknown" : String) ≠ "2026-01-01" :=
  ⟨rfl, rfl, rfl, rfl, rfl, by decide⟩

/-- C3 (amended): the normalizer runs exactly one attempt, selected by the
input's shape — (a) when the string ends in `Z` and contains a dot, (b)
when it ends in `Z` without a dot, (c) when it does not end in `Z` — and a
failure of the selected attempt yields `"unknown"` without trying the
others (in particular a `Z`-suffixed input never reaches attempt (c)); any
exception during the selected attempt yields `"unknown"`. -/
theorem spec_c3 : ∀ s : String, s ≠ "" →
    (endsWithZ s.data = true → hasDot s.data = true →
      parse_timestamp (.str s) = dateOrUnknown (attemptA s.data))
    ∧ (endsWithZ s.data = true → hasDot s.data = false →
      parse_timestamp (.str s) = dateOrUnknown (attemptB s.data))
    ∧ (endsWithZ s.data = false →
      parse_timestamp (.str s) = dateOrUnknown (attemptC s.data)) := by
  intro s hs
  have htr : truthy (JValue.str s) = true := by simp [truthy, hs]
  refine ⟨fun h1 h2 => ?_, fun h1 h2 => ?_, fun h1 => ?_⟩
  · simp only [parse_timestamp, htr, Bool.true_eq_false, if_false, h1, h2, if_true]
    unfold attemptA
    rw [if_pos h2]
    rcases hA : strptimeZdotted ((rsplitLastDot s.data).1
        ++ '.' :: (ljust3 ((rstripZ (rsplitLastDot s.data).2).take 3) ++ ['Z'])) with _ | dd <;>
      simp [dateOrUnknown, hA]
  · simp only [parse_timestamp, htr, Bool.true_eq_false, if_false, h1, h2, if_true]
    unfold attemptB
    rcases hB : strptimeZplain s.data with _ | dd <;> simp [dateOrUnknown, hB]
  · simp only [parse_timestamp, htr, Bool.true_eq_false, if_false, h1]
    unfold attemptC
    rcases hC : fromisoformat (replaceZ s.data) with _ | dt <;> simp [dateOrUnknown, hC]

/-- C3 (witness): a valid dotless `Z`-suffixed timestamp takes attempt
(b). -/
theorem spec_c3_witness :
    parse_timestamp (.str "2026-01-02T03:04:05Z")
      = dateOrUnknown (attemptB ("2026-01-02T03:04:05Z").data) :=
  (spec_c3 "2026-01-02T03:04:05Z" (by decide)).2.1 (by decide) (by decide)

/-- C10 (amended): the per-line parser returns no entry (`None`) on blank
lines and on lines that are not valid JSON, and raises `AttributeError` on
every valid-JSON line whose root is not an object; it is, however, not
total on all JSON-object lines (see the counterexample: a non-mapping
`_meta` field raises). -/
theorem spec_c10 : ∀ line : String,
    (FormatLog.pyStripChars line.data = [] → FormatLog.parse_log_line line = .ok none)
    ∧ (FormatLog.loadsChars (FormatLog.pyStripChars line.data) = none →
        FormatLog.parse_log_line line = .ok none)
    ∧ (∀ v : JValue, FormatLog.loadsChars (FormatLog.pyStripChars line.data) = some v →
        (∀ fs, v ≠ JValue.obj fs) →
        FormatLog.parse_log_line line = .error .attributeError) := by
  intro line
  refine ⟨fun h => ?_, fun h => ?_, fun v hv hno => ?_⟩
  · simp [FormatLog.parse_log_line, h]
  · by_cases hb : FormatLog.pyStripChars line.data = []
    · simp [FormatLog.parse_log_line, hb]
    · simp [FormatLog.parse_log_line, hb, h]
  · have hb : FormatLog.pyStripChars line.data ≠ [] := by
      intro h0
      rw [h0] at hv
      simp [FormatLog.loadsChars, FormatLog.jskipWs, FormatLog.parseJValue] at hv
    cases v with
    | obj fs => exact absurd rfl (hno fs)
    | null => simp [FormatLog.parse_log_line, hb, hv]
    | bool b => simp [FormatLog.parse_log_line, hb, hv]
    | num n => simp [FormatLog.parse_log_line, hb, hv]
    | str s => simp [FormatLog.parse_log_line, hb, hv]
    | arr xs => simp [FormatLog.parse_log_line, hb, hv]

/-- C10 (witness): the line `42` is valid JSON with a non-object root and
makes the parser raise. -/
theorem spec_c10_witness : FormatLog.parse_log_line "42" = .error .attributeError :=
  (spec_c10 "42").2.2 (.num 42) rfl (fun _ h => nomatch h)

/-- C5: in structured output each date's grand total is the sum of provider
A's own four counters, while provider B's is the reported total counter
used as-is (the demonstration aggregate shows it is not recomputed from the
other four even when they disagree); for the same aggregate the text
renderer and the structured renderer report the identical underlying total
(and identical formatted string) for every date. -/
theorem spec_c5 :
    (∀ (agg : Claude.Daily) (d : String),
      (Claude.json_date_entry agg d).totalTokens
          = (agg d).input_tokens + (agg d).output_tokens
            + (agg d).cache_read_tokens + (agg d).cache_creation_tokens
        ∧ (Claude.json_date_entry agg d).totalTokens = Claude.text_total agg d
        ∧ (Claude.json_date_entry agg d).totalTokensFormatted
            = Claude.text_total_formatted agg d)
    ∧ (∀ (agg : Qwen.Daily) (d : String),
      (Qwen.json_date_entry agg d).totalTokens = (agg d).total_tokens
        ∧ (Qwen.json_date_entry agg d).totalTokens = Qwen.text_total agg d
        ∧ (Qwen.json_date_entry agg d).totalTokensFormatted = Qwen.text_total_formatted agg d)
    ∧ (Qwen.json_date_entry Qwen.demo_daily "2026-01-01").totalTokens = 5
    ∧ (Qwen.demo_daily "2026-01-01").prompt_tokens
        + (Qwen.demo_daily "2026-01-01").candidates_tokens
        + (Qwen.demo_daily "2026-01-01").thoughts_tokens
        + (Qwen.demo_daily "2026-01-01").cached_tokens = 2
    ∧ (5 : Int) ≠ 2 :=
  ⟨fun _ _ => ⟨rfl, rfl, rfl⟩, fun _ _ => ⟨rfl, rfl, rfl⟩, rfl, by decide, by decide⟩

/-- C6: the magnitude formatter maps every value of at least 1,000,000 to a
fixed two-decimal `M`-suffixed string, every value in [1,000, 1,000,000) to
a fixed two-decimal `K`-suffixed string, and every smaller value to the
integer with grouping separators; in particular 999 formats as `"999"`,
1000 as `"1.00K"` and 1500000 as `"1.50M"`. -/
theorem spec_c6 :
    (format_tokens 999 = "999" ∧ format_tokens 1000 = "1.00K"
      ∧ format_tokens 1500000 = "1.50M")
    ∧ (∀ v : Int, 1000000 ≤ v →
        ∃ q r : Nat, r < 100 ∧ format_tokens v = ⟨natDigits q⟩ ++ "." ++ ⟨pad2 r⟩ ++ "M")
    ∧ (∀ v : Int, 1000 ≤ v → v < 1000000 →
        ∃ q r : Nat, r < 100 ∧ format_tokens v = ⟨natDigits q⟩ ++ "." ++ ⟨pad2 r⟩ ++ "K")
    ∧ (∀ v : Int, v < 1000 → format_tokens v = pyThousands v) := by
  refine ⟨⟨by decide, by decide, by decide⟩, fun v hv => ?_, fun v hv hv2 => ?_,
    fun v hv => ?_⟩
  · refine ⟨(roundHalfEven v 10000).toNat / 100, (roundHalfEven v 10000).toNat % 100,
      Nat.mod_lt _ (by norm_num), ?_⟩
    unfold format_tokens
    rw [if_pos (by omega : v ≥ 1000000)]
    rfl
  · refine ⟨(roundHalfEven v 10).toNat / 100, (roundHalfEven v 10).toNat % 100,
      Nat.mod_lt _ (by norm_num), ?_⟩
    unfold format_tokens
    rw [if_neg (by omega : ¬ v ≥ 1000000), if_pos (by omega : v ≥ 1000)]
    rfl
  · unfold format_tokens
    rw [if_neg (by omega : ¬ v ≥ 1000000), if_neg (by omega : ¬ v ≥ 1000)]

/-- C6 (witness): the three threshold branches at concrete inputs. -/
theorem spec_c6_witness :
    (∃ q r : Nat, r < 100
      ∧ format_tokens 2345678 = ⟨natDigits q⟩ ++ "." ++ ⟨pad2 r⟩ ++ "M")
    ∧ (∃ q r : Nat, r < 100
      ∧ format_tokens 54321 = ⟨natDigits q⟩ ++ "." ++ ⟨pad2 r⟩ ++ "K")
    ∧ format_tokens 42 = pyThousands 42 :=
  ⟨spec_c6.2.1 2345678 (by decide), spec_c6.2.2.1 54321 (by decide) (by decide),
    spec_c6.2.2.2 42 (by decide)⟩

theorem Claude.claude_line_eq (daily : Claude.Daily) (l : Option JValue) :
    Claude.process_line daily l
      = match l with
        | some (.obj e) =>
            if Claude.has_timestamp e && Claude.passes_check e
            then Claude.apply_update daily e else daily
        | _ => daily := by
  cases l with
  | none => rfl
  | some v =>
      cases v with
      | obj e =>
          simp only [Claude.process_line]
          by_cases hts : truthy (jlookupD e "timestamp" JValue.null) = true
          · have hts2 : Claude.has_timestamp e = true := hts
            rw [if_pos hts, hts2]
            simp only [Bool.true_and]
            unfold Claude.passes_check Claude.apply_update Claude.counters_of
              Claude.model_of Claude.date_key_of
            rcases h1 : asNum (Claude.extract_tokens_from_entry e).input_tokens with _ | a <;>
              rcases h2 : asNum (Claude.extract_tokens_from_entry e).output_tokens with _ | o <;>
              rcases h3 : asNum (Claude.extract_tokens_from_entry e).cache_read_tokens with _ | c <;>
              rcases h4 : asNum (Claude.extract_tokens_from_entry e).cache_creation_tokens with _ | cc <;>
              simp only [h1, h2, h3, h4] <;> try rfl
            by_cases hz : a + o + c + cc = 0
            · simp [hz]
            · simp only [hz, if_false, bne_iff_ne, ne_eq, not_false_eq_true, if_true,
                Option.getD_some]
              simp [hz]
          · have hts2 : Claude.has_timestamp e = false := by
              simpa [Claude.has_timestamp] using hts
            rw [if_neg hts, hts2]
            simp
      | null => rfl
      | bool b => rfl
      | num n => rfl
      | str s => rfl
      | arr xs => rfl

theorem Qwen.qwen_line_eq (daily : Qwen.Daily) (l : Option JValue) :
    Qwen.process_line daily l
      = match l with
        | some (.obj e) =>
            if Qwen.has_timestamp e && Qwen.passes_check e
            then Qwen.apply_update daily e else daily
        | _ => daily := by
  cases l with
  | none => rfl
  | some v =>
      cases v with
      | obj e =>
          simp only [Qwen.process_line]
          by_cases hts : truthy (jlookupD e "timestamp" JValue.null) = true
          · have hts2 : Qwen.has_timestamp e = true := hts
            rw [if_pos hts, hts2]
            simp only [Bool.true_and]
            unfold Qwen.passes_check Qwen.apply_update Qwen.date_key_of
            by_cases hz : pyEqZero (Qwen.extract_tokens_from_entry e).total_tokens = true
            · simp [hz]
            · simp only [Bool.not_eq_true] at hz
              simp [hz]
          · have hts2 : Qwen.has_timestamp e = false := by
              simpa [Qwen.has_timestamp] using hts
            rw [if_neg hts, hts2]
            simp
      | null => rfl
      | bool b => rfl
      | num n => rfl
      | str s => rfl
      | arr xs => rfl

theorem Claude.claude_line_counters (daily : Claude.Daily) (l : Option JValue) (d : String) :
    ((Claude.process_line daily l) d).input_tokens
        = (daily d).input_tokens + (Claude.contrib d l).1
    ∧ ((Claude.process_line daily l) d).output_tokens
        = (daily d).output_tokens + (Claude.contrib d l).2.1
    ∧ ((Claude.process_line daily l) d).cache_read_tokens
        = (daily d).cache_read_tokens + (Claude.contrib d l).2.2.1
    ∧ ((Claude.process_line daily l) d).cache_creation_tokens
        = (daily d).cache_creation_tokens + (Claude.contrib d l).2.2.2 := by
  rw [Claude.claude_line_eq]
  cases l with
  | none => simp [Claude.contrib]
  | some v =>
      cases v with
      | obj e =>
          dsimp only
          by_cases hc : (Claude.has_timestamp e && Claude.passes_check e) = true
          · rw [if_pos hc]
            unfold Claude.apply_update Claude.contrib
            by_cases hd : d = Claude.date_key_of e
            · have hbeq : (Claude.date_key_of e == d) = true := by
                rw [beq_iff_eq, hd]
              simp [hc, hbeq, ← hd, Claude.Bucket.add]
            · have hbeq : (Claude.date_key_of e == d) = false := by
                rw [beq_eq_false_iff_ne]
                exact fun h => hd h.symm
              simp [hc, hbeq, hd]
          · rw [if_neg hc]
            simp only [Bool.not_eq_true] at hc
            simp [Claude.contrib, hc]
      | null => simp [Claude.contrib]
      | bool b => simp [Claude.contrib]
      | num n => simp [Claude.contrib]
      | str s => simp [Claude.contrib]
      | arr xs => simp [Claude.contrib]

theorem Claude.claude_line_models (daily : Claude.Daily) (l : Option JValue) (d : String)
    (m : JValue) :
    memJ m ((Claude.process_line daily l) d).models_used
      = (memJ m (daily d).models_used || Claude.model_contrib d m l) := by
  rw [Claude.claude_line_eq]
  cases l with
  | none => simp [Claude.model_contrib]
  | some v =>
      cases v with
      | obj e =>
          dsimp only
          by_cases hc : (Claude.has_timestamp e && Claude.passes_check e) = true
          · rw [if_pos hc]
            unfold Claude.apply_update Claude.model_contrib
            by_cases hd : d = Claude.date_key_of e
            · have hbeq : (Claude.date_key_of e == d) = true := by
                rw [beq_iff_eq, hd]
              by_cases hm : truthy (Claude.model_of e) = true
              · simp [hc, hbeq, ← hd, Claude.Bucket.add, hm, memJ_insertModel]
              · simp only [Bool.not_eq_true] at hm
                simp [hc, hbeq, ← hd, Claude.Bucket.add, hm]
            · have hbeq : (Claude.date_key_of e == d) = false := by
                rw [beq_eq_false_iff_ne]
                exact fun h => hd h.symm
              simp [hc, hbeq, hd]
          · rw [if_neg hc]
            simp only [Bool.not_eq_true] at hc
            simp [Claude.model_contrib, hc]
      | null => simp [Claude.model_contrib]
      | bool b => simp [Claude.model_contrib]
      | num n => simp [Claude.model_contrib]
      | str s => simp [Claude.model_contrib]
      | arr xs => simp [Claude.model_contrib]

theorem Qwen.add_entry_models (b : Qwen.Bucket) (t : Qwen.Tokens) (m : JValue) :
    memJ m (Qwen.Bucket.add_entry b t).models_used
      = (memJ m b.models_used
          || ((asNum t.prompt_tokens).isSome && (asNum t.candidates_tokens).isSome
              && (asNum t.thoughts_tokens).isSome && (asNum t.cached_tokens).isSome
              && (asNum t.total_tokens).isSome
              && truthy t.model && JValue.beq t.model m)) := by
  unfold Qwen.Bucket.add_entry
  rcases h1 : asNum t.prompt_tokens with _ | p <;>
    rcases h2 : asNum t.candidates_tokens with _ | c <;>
    rcases h3 : asNum t.thoughts_tokens with _ | th <;>
    rcases h4 : asNum t.cached_tokens with _ | ca <;>
    rcases h5 : asNum t.total_tokens with _ | tt <;>
    simp only [h1, h2, h3, h4, h5, Option.isSome_some, Option.isSome_none,
      Bool.true_and, Bool.false_and, Bool.and_false, Bool.and_true, Bool.or_false]
  by_cases hm : truthy t.model = true
  · simp [hm, memJ_insertModel]
  · simp only [Bool.not_eq_true] at hm
    simp [hm]

theorem Qwen.qwen_line_models (daily : Qwen.Daily) (l : Option JValue) (d : String)
    (m : JValue) :
    memJ m ((Qwen.process_line daily l) d).models_used
      = (memJ m (daily d).models_used || Qwen.model_contrib d m l) := by
  rw [Qwen.qwen_line_eq]
  cases l with
  | none => simp [Qwen.model_contrib]
  | some v =>
      cases v with
      | obj e =>
          dsimp only
          by_cases hc : (Qwen.has_timestamp e && Qwen.passes_check e) = true
          · rw [if_pos hc]
            unfold Qwen.apply_update Qwen.model_contrib
            by_cases hd : d = Qwen.date_key_of e
            · have hbeq : (Qwen.date_key_of e == d) = true := by
                rw [beq_iff_eq, hd]
              rw [← hd]
              simp only [if_pos rfl, if_true]
              rw [Qwen.add_entry_models]
              unfold Qwen.fully_numeric Qwen.model_of
              simp only [hc, hbeq]
              simp [Bool.and_assoc, Bool.and_comm, Bool.and_left_comm]
            · have hbeq : (Qwen.date_key_of e == d) = false := by
                rw [beq_eq_false_iff_ne]
                exact fun h => hd h.symm
              simp [hc, hbeq, hd]
          · rw [if_neg hc]
            simp only [Bool.not_eq_true] at hc
            simp [Qwen.model_contrib, hc]
      | null => simp [Qwen.model_contrib]
      | bool b => simp [Qwen.model_contrib]
      | num n => simp [Qwen.model_contrib]
      | str s => simp [Qwen.model_contrib]
      | arr xs => simp [Qwen.model_contrib]

theorem Claude.claude_fold_counters (ls : List (Option JValue)) (daily : Claude.Daily) (d : String) :
    ((ls.foldl Claude.process_line daily) d).input_tokens
        = (daily d).input_tokens + (ls.map (fun l => (Claude.contrib d l).1)).sum
    ∧ ((ls.foldl Claude.process_line daily) d).output_tokens
        = (daily d).output_tokens + (ls.map (fun l => (Claude.contrib d l).2.1)).sum
    ∧ ((ls.foldl Claude.process_line daily) d).cache_read_tokens
        = (daily d).cache_read_tokens + (ls.map (fun l => (Claude.contrib d l).2.2.1)).sum
    ∧ ((ls.foldl Claude.process_line daily) d).cache_creation_tokens
        = (daily d).cache_creation_tokens
          + (ls.map (fun l => (Claude.contrib d l).2.2.2)).sum := by
  induction ls generalizing daily with
  | nil => simp
  | cons l ls ih =>
      obtain ⟨s1, s2, s3, s4⟩ := Claude.claude_line_counters daily l d
      obtain ⟨i1, i2, i3, i4⟩ := ih (Claude.process_line daily l)
      refine ⟨?_, ?_, ?_, ?_⟩ <;>
        simp only [List.foldl_cons, List.map_cons, List.sum_cons, i1, i2, i3, i4,
          s1, s2, s3, s4] <;> ring

theorem Claude.claude_fold_models (ls : List (Option JValue)) (daily : Claude.Daily) (d : String)
    (m : JValue) :
    memJ m ((ls.foldl Claude.process_line daily) d).models_used
      = (memJ m (daily d).models_used || ls.any (Claude.model_contrib d m)) := by
  induction ls generalizing daily with
  | nil => simp
  | cons l ls ih =>
      simp only [List.foldl_cons, List.any_cons]
      rw [ih (Claude.process_line daily l), Claude.claude_line_models]
      simp [Bool.or_assoc]

theorem Qwen.qwen_fold_models (ls : List (Option JValue)) (daily : Qwen.Daily) (d : String)
    (m : JValue) :
    memJ m ((ls.foldl Qwen.process_line daily) d).models_used
      = (memJ m (daily d).models_used || ls.any (Qwen.model_contrib d m)) := by
  induction ls generalizing daily with
  | nil => simp
  | cons l ls ih =>
      simp only [List.foldl_cons, List.any_cons]
      rw [ih (Qwen.process_line daily l), Qwen.qwen_line_models]
      simp [Bool.or_assoc]

/-- C4: for every record with a timestamp, provider A contributes it to a
bucket iff the sum of its four extracted counters is nonzero and provider B
iff the extracted reported total (`totalTokenCount`) is nonzero; a record
failing its provider's zero-check leaves the aggregate untouched (silently
skipped — the model has no error counter at all). -/
theorem spec_c4 : ∀ (dailyA : Claude.Daily) (dailyB : Qwen.Daily)
    (e : List (String × JValue)),
    truthy (jlookupD e "timestamp" JValue.null) = true →
    (Claude.process_line dailyA (some (.obj e))
        = if Claude.passes_check e then Claude.apply_update dailyA e else dailyA)
    ∧ (Qwen.process_line dailyB (some (.obj e))
        = if Qwen.passes_check e then Qwen.apply_update dailyB e else dailyB) := by
  intro dailyA dailyB e hts
  constructor
  · rw [Claude.claude_line_eq]
    dsimp only
    rw [show Claude.has_timestamp e = true from hts, Bool.true_and]
  · rw [Qwen.qwen_line_eq]
    dsimp only
    rw [show Qwen.has_timestamp e = true from hts, Bool.true_and]

/-- C4 (witness): a record with a timestamp but no usable counters. -/
theorem spec_c4_witness :
    Claude.process_line Claude.Daily.empty (some (.obj [("timestamp", JValue.str "x")]))
      = if Claude.passes_check [("timestamp", JValue.str "x")]
        then Claude.apply_update Claude.Daily.empty [("timestamp", JValue.str "x")]
        else Claude.Daily.empty :=
  (spec_c4 Claude.Daily.empty Qwen.Daily.empty [("timestamp", JValue.str "x")] (by decide)).1

/-- C1: for every sequence of parsed lines, each per-date counter of the
Daily Aggregator equals the sum of the corresponding field over exactly the
records that had a timestamp and passed the nonzero usable-data check and
fell on that date (`Claude.contrib`); the sums are independent of
processing order; and merging two files' aggregates with the
additive/union rule equals aggregating the concatenation of both files'
lines (counters exactly, model sets as sets). -/
theorem spec_c1 : ∀ (ls : List (Option JValue)) (d : String),
    ((Claude.process_jsonl_file ls d).input_tokens
        = (ls.map (fun l => (Claude.contrib d l).1)).sum
      ∧ (Claude.process_jsonl_file ls d).output_tokens
        = (ls.map (fun l => (Claude.contrib d l).2.1)).sum
      ∧ (Claude.process_jsonl_file ls d).cache_read_tokens
        = (ls.map (fun l => (Claude.contrib d l).2.2.1)).sum
      ∧ (Claude.process_jsonl_file ls d).cache_creation_tokens
        = (ls.map (fun l => (Claude.contrib d l).2.2.2)).sum)
    ∧ (∀ ls2 : List (Option JValue), ls.Perm ls2 →
        (Claude.process_jsonl_file ls d).input_tokens
            = (Claude.process_jsonl_file ls2 d).input_tokens
        ∧ (Claude.process_jsonl_file ls d).output_tokens
            = (Claude.process_jsonl_file ls2 d).output_tokens
        ∧ (Claude.process_jsonl_file ls d).cache_read_tokens
            = (Claude.process_jsonl_file ls2 d).cache_read_tokens
        ∧ (Claude.process_jsonl_file ls d).cache_creation_tokens
            = (Claude.process_jsonl_file ls2 d).cache_creation_tokens)
    ∧ (∀ f2 : List (Option JValue),
        ((Claude.merge (Claude.process_jsonl_file ls) (Claude.process_jsonl_file f2)) d).input_tokens
            = (Claude.process_jsonl_file (ls ++ f2) d).input_tokens
        ∧ ((Claude.merge (Claude.process_jsonl_file ls) (Claude.process_jsonl_file f2)) d).output_tokens
            = (Claude.process_jsonl_file (ls ++ f2) d).output_tokens
        ∧ ((Claude.merge (Claude.process_jsonl_file ls) (Claude.process_jsonl_file f2)) d).cache_read_tokens
            = (Claude.process_jsonl_file (ls ++ f2) d).cache_read_tokens
        ∧ ((Claude.merge (Claude.process_jsonl_file ls) (Claude.process_jsonl_file f2)) d).cache_creation_tokens
            = (Claude.process_jsonl_file (ls ++ f2) d).cache_creation_tokens
        ∧ ∀ m : JValue,
            memJ m ((Claude.merge (Claude.process_jsonl_file ls)
                (Claude.process_jsonl_file f2)) d).models_used
              = memJ m ((Claude.process_jsonl_file (ls ++ f2)) d).models_used) := by
  have hsum : ∀ (ls : List (Option JValue)) (d : String),
      (Claude.process_jsonl_file ls d).input_tokens
          = (ls.map (fun l => (Claude.contrib d l).1)).sum
      ∧ (Claude.process_jsonl_file ls d).output_tokens
          = (ls.map (fun l => (Claude.contrib d l).2.1)).sum
      ∧ (Claude.process_jsonl_file ls d).cache_read_tokens
          = (ls.map (fun l => (Claude.contrib d l).2.2.1)).sum
      ∧ (Claude.process_jsonl_file ls d).cache_creation_tokens
          = (ls.map (fun l => (Claude.contrib d l).2.2.2)).sum := by
    intro ls d
    have h := Claude.claude_fold_counters ls Claude.Daily.empty d
    simpa [Claude.process_jsonl_file, Claude.Daily.empty, Claude.Bucket.empty] using h
  intro ls d
  refine ⟨hsum ls d, fun ls2 hp => ?_, fun f2 => ?_⟩
  · obtain ⟨a1, a2, a3, a4⟩ := hsum ls d
    obtain ⟨b1, b2, b3, b4⟩ := hsum ls2 d
    rw [a1, a2, a3, a4, b1, b2, b3, b4]
    exact ⟨((hp.map _).sum_eq), ((hp.map _).sum_eq), ((hp.map _).sum_eq), ((hp.map _).sum_eq)⟩
  · obtain ⟨a1, a2, a3, a4⟩ := hsum ls d
    obtain ⟨b1, b2, b3, b4⟩ := hsum f2 d
    obtain ⟨c1, c2, c3, c4⟩ := hsum (ls ++ f2) d
    refine ⟨?_, ?_, ?_, ?_, fun m => ?_⟩
    · simp [Claude.merge, a1, b1, c1]
    · simp [Claude.merge, a2, b2, c2]
    · simp [Claude.merge, a3, b3, c3]
    · simp [Claude.merge, a4, b4, c4]
    · have hm1 := Claude.claude_fold_models ls Claude.Daily.empty d m
      have hm2 := Claude.claude_fold_models f2 Claude.Daily.empty d m
      have hm3 := Claude.claude_fold_models (ls ++ f2) Claude.Daily.empty d m
      simp only [Claude.process_jsonl_file]
      simp only [Claude.merge, memJ_unionModels, hm1, hm2, hm3]
      simp [Claude.Daily.empty, Claude.Bucket.empty, memJ, Bool.or_assoc]

/-- C1 (witness): order-independence at a concrete permutation. -/
theorem spec_c1_witness :
    (Claude.process_jsonl_file [none, some (JValue.num 1)] "unknown").input_tokens
        = (Claude.process_jsonl_file [some (JValue.num 1), none] "unknown").input_tokens
    ∧ (Claude.process_jsonl_file [none, some (JValue.num 1)] "unknown").output_tokens
        = (Claude.process_jsonl_file [some (JValue.num 1), none] "unknown").output_tokens
    ∧ (Claude.process_jsonl_file [none, some (JValue.num 1)] "unknown").cache_read_tokens
        = (Claude.process_jsonl_file [some (JValue.num 1), none] "unknown").cache_read_tokens
    ∧ (Claude.process_jsonl_file [none, some (JValue.num 1)] "unknown").cache_creation_tokens
        = (Claude.process_jsonl_file [some (JValue.num 1), none] "unknown").cache_creation_tokens :=
  (spec_c1 [none, some (JValue.num 1)] "unknown").2.1 [some (JValue.num 1), none]
    (List.Perm.swap _ _ _)

/-- C9: every model value appearing in a date's model set comes from a
record that contributed nonzero token counters to that date: for provider A
a record with a timestamp that passed the nonzero-sum check, for provider B
one that passed the nonzero-total check and whose five counters were all
numeric (so the update ran to completion), each with a truthy model equal
to the set element and bucketed on that date. -/
theorem spec_c9 : ∀ (ls : List (Option JValue)) (d : String) (m : JValue),
    (memJ m ((Claude.process_jsonl_file ls) d).models_used = true →
      ∃ e, some (JValue.obj e) ∈ ls ∧ Claude.has_timestamp e = true
        ∧ Claude.passes_check e = true ∧ Claude.date_key_of e = d
        ∧ truthy (Claude.model_of e) = true ∧ Claude.model_of e = m)
    ∧ (memJ m ((Qwen.process_jsonl_file ls) d).models_used = true →
      ∃ e, some (JValue.obj e) ∈ ls ∧ Qwen.has_timestamp e = true
        ∧ Qwen.passes_check e = true ∧ Qwen.fully_numeric e = true
        ∧ Qwen.date_key_of e = d ∧ truthy (Qwen.model_of e) = true
        ∧ Qwen.model_of e = m) := by
  intro ls d m
  constructor
  · intro hmem
    rw [show Claude.process_jsonl_file ls = ls.foldl Claude.process_line Claude.Daily.empty
          from rfl,
        Claude.claude_fold_models] at hmem
    simp only [Claude.Daily.empty, Claude.Bucket.empty, memJ, List.any_nil,
      Bool.false_or] at hmem
    rw [List.any_eq_true] at hmem
    obtain ⟨l, hl, hc⟩ := hmem
    cases l with
    | none => simp [Claude.model_contrib] at hc
    | some v =>
        cases v with
        | obj e =>
            simp only [Claude.model_contrib, Bool.and_eq_true, beq_iff_eq,
              JValue.beq_iff] at hc
            obtain ⟨⟨⟨⟨h1, h2⟩, h3⟩, h4⟩, h5⟩ := hc
            exact ⟨e, hl, h1, h2, h3, h4, h5⟩
        | null => simp [Claude.model_contrib] at hc
        | bool b => simp [Claude.model_contrib] at hc
        | num n => simp [Claude.model_contrib] at hc
        | str s => simp [Claude.model_contrib] at hc
        | arr xs => simp [Claude.model_contrib] at hc
  · intro hmem
    rw [show Qwen.process_jsonl_file ls = ls.foldl Qwen.process_line Qwen.Daily.empty
          from rfl,
        Qwen.qwen_fold_models] at hmem
    simp only [Qwen.Daily.empty, Qwen.Bucket.empty, memJ, List.any_nil,
      Bool.false_or] at hmem
    rw [List.any_eq_true] at hmem
    obtain ⟨l, hl, hc⟩ := hmem
    cases l with
    | none => simp [Qwen.model_contrib] at hc
    | some v =>
        cases v with
        | obj e =>
            simp only [Qwen.model_contrib, Bool.and_eq_true, beq_iff_eq,
              JValue.beq_iff] at hc
            obtain ⟨⟨⟨⟨⟨h1, h2⟩, h3⟩, h4⟩, h5⟩, h6⟩ := hc
            exact ⟨e, hl, h1, h2, h3, h4, h5, h6⟩
        | null => simp [Qwen.model_contrib] at hc
        | bool b => simp [Qwen.model_contrib] at hc
        | num n => simp [Qwen.model_contrib] at hc
        | str s => simp [Qwen.model_contrib] at hc
        | arr xs => simp [Qwen.model_contrib] at hc

/-- C9 (witness): a passing record per provider whose model lands in the
`"unknown"` bucket's model set. -/
theorem spec_c9_witness :
    (∃ e, some (JValue.obj e)
          ∈ [some (JValue.obj [("timestamp", JValue.str "t"), ("type", JValue.str "assistant"),
              ("message", JValue.obj [("model", JValue.str "m1"),
                ("usage", JValue.obj [("input_tokens", JValue.num 3)])])])]
        ∧ Claude.has_timestamp e = true ∧ Claude.passes_check e = true
        ∧ Claude.date_key_of e = "unknown" ∧ truthy (Claude.model_of e) = true
        ∧ Claude.model_of e = JValue.str "m1")
    ∧ (∃ e, some (JValue.obj e)
          ∈ [some (JValue.obj [("timestamp", JValue.str "t"), ("type", JValue.str "assistant"),
              ("model", JValue.str "m2"),
              ("usageMetadata", JValue.obj [("totalTokenCount", JValue.num 7)])])]
        ∧ Qwen.has_timestamp e = true ∧ Qwen.passes_check e = true
        ∧ Qwen.fully_numeric e = true ∧ Qwen.date_key_of e = "unknown"
        ∧ truthy (Qwen.model_of e) = true ∧ Qwen.model_of e = JValue.str "m2") :=
  ⟨(spec_c9 [some (JValue.obj [("timestamp", JValue.str "t"), ("type", JValue.str "assistant"),
        ("message", JValue.obj [("model", JValue.str "m1"),
          ("usage", JValue.obj [("input_tokens", JValue.num 3)])])])]
      "unknown" (JValue.str "m1")).1 (by decide),
   (spec_c9 [some (JValue.obj [("timestamp", JValue.str "t"), ("type", JValue.str "assistant"),
        ("model", JValue.str "m2"),
        ("usageMetadata", JValue.obj [("totalTokenCount", JValue.num 7)])])]
      "unknown" (JValue.str "m2")).2 (by decide)⟩

theorem digitChar_eq_nine (n : Nat) (h : 9 ≤ n) : digitChar n = '9' := by
  obtain ⟨m, hm⟩ := Nat.exists_eq_add_of_le h
  have hm2 : n = m + 9 := by omega
  subst hm2
  rfl

theorem digitVal_digitChar (n : Nat) (h : n < 10) : digitVal (digitChar n) = some n := by
  interval_cases n <;> rfl

theorem digitVal_digitChar_isSome (n : Nat) : (digitVal (digitChar n)).isSome = true := by
  rcases Nat.lt_or_ge n 10 with h | h
  · rw [digitVal_digitChar n h]; rfl
  · rw [digitChar_eq_nine n (by omega)]; rfl

theorem digitChar_ne (n : Nat) (c : Char) (hc : digitVal c = none) : digitChar n ≠ c := by
  intro h
  have hs := digitVal_digitChar_isSome n
  rw [h, hc] at hs
  exact Bool.noConfusion hs

theorem digitChar_bne (n : Nat) (c : Char) (hc : digitVal c = none) :
    (digitChar n == c) = false := by
  rw [beq_eq_false_iff_ne]
  exact digitChar_ne n c hc

theorem expectChar_cons (c : Char) (r : List Char) : expectChar c (c :: r) = some r := by
  simp [expectChar]

theorem grab2or1_pad2 (ok2 ok1 : Nat → Bool) (n : Nat) (rest : List Char)
    (h : n < 100) (h2 : ok2 n = true) :
    grab2or1 ok2 ok1 (pad2 n ++ rest) = some (n, rest) := by
  have e1 := digitVal_digitChar (n / 10) (by omega)
  have e2 := digitVal_digitChar (n % 10) (by omega)
  have hn : 10 * (n / 10) + n % 10 = n := by omega
  simp only [pad2, List.cons_append, List.nil_append, grab2or1, e1, e2, hn, h2, if_true]

theorem grabY_pad4 (y : Nat) (rest : List Char) (h : y < 10000) :
    grabY (pad4 y ++ rest) = some (y, rest) := by
  have e1 := digitVal_digitChar (y / 100 / 10) (by omega)
  have e2 := digitVal_digitChar (y / 100 % 10) (by omega)
  have e3 := digitVal_digitChar (y % 100 / 10) (by omega)
  have e4 := digitVal_digitChar (y % 100 % 10) (by omega)
  have hy : 1000 * (y / 100 / 10) + 100 * (y / 100 % 10) + 10 * (y % 100 / 10) + y % 100 % 10
      = y := by omega
  simp only [pad4, pad2, List.cons_append, List.nil_append, grabY, e1, e2, e3, e4,
    Option.bind_eq_bind, Option.some_bind, hy]
  rfl

theorem daysInMonth_le (y m : Nat) : daysInMonth y m ≤ 31 := by
  unfold daysInMonth
  split
  · split <;> omega
  · split <;> omega

theorem grabDateTime_canonical (y mo d h mi s : Nat) (tail : List Char)
    (hy : y < 10000) (hmo1 : 1 ≤ mo) (hmo2 : mo ≤ 12) (hd1 : 1 ≤ d) (hd2 : d ≤ 31)
    (hh : h ≤ 23) (hmi : mi ≤ 59) (hs : s ≤ 61) :
    grabDateTime (pad4 y ++ '-' :: (pad2 mo ++ '-' :: (pad2 d ++ 'T' ::
      (pad2 h ++ ':' :: (pad2 mi ++ ':' :: (pad2 s ++ tail))))))
      = some (y, mo, d, h, mi, s, tail) := by
  unfold grabDateTime
  simp only [Option.bind_eq_bind]
  rw [grabY_pad4 _ _ hy]
  simp only [Option.some_bind]
  rw [expectChar_cons]
  simp only [Option.some_bind]
  rw [grab2or1_pad2 (fun n => 1 ≤ n && n ≤ 12) (fun n => 1 ≤ n && n ≤ 9) mo _
    (by omega) (by simp [hmo1, hmo2])]
  simp only [Option.some_bind]
  rw [expectChar_cons]
  simp only [Option.some_bind]
  rw [grab2or1_pad2 (fun n => 1 ≤ n && n ≤ 31) (fun n => 1 ≤ n && n ≤ 9) d _
    (by omega) (by simp [hd1, hd2])]
  simp only [Option.some_bind]
  rw [expectChar_cons]
  simp only [Option.some_bind]
  rw [grab2or1_pad2 (fun n => n ≤ 23) (fun _ => true) h _ (by omega) (by simp [hh])]
  simp only [Option.some_bind]
  rw [expectChar_cons]
  simp only [Option.some_bind]
  rw [grab2or1_pad2 (fun n => n ≤ 59) (fun _ => true) mi _ (by omega) (by simp [hmi])]
  simp only [Option.some_bind]
  rw [expectChar_cons]
  simp only [Option.some_bind]
  rw [grab2or1_pad2 (fun n => n ≤ 61) (fun _ => true) s _ (by omega) (by simp [hs])]
  rfl

theorem mkStamp_valid (y mo d h mi s : Nat)
    (hy1 : 1 ≤ y) (hy2 : y ≤ 9999) (hmo1 : 1 ≤ mo) (hmo2 : mo ≤ 12)
    (hd1 : 1 ≤ d) (hd2 : d ≤ daysInMonth y mo)
    (hh : h ≤ 23) (hmi : mi ≤ 59) (hs : s ≤ 59) :
    mkStamp y mo d h mi s = some ⟨y, mo, d⟩ := by
  unfold mkStamp
  rw [if_pos]
  exact ⟨hy1, hy2, hmo1, hmo2, hd1, hd2, hh, hmi, hs⟩

theorem strptimeZplain_canonical (y mo d h mi s : Nat)
    (hy1 : 1 ≤ y) (hy2 : y ≤ 9999) (hmo1 : 1 ≤ mo) (hmo2 : mo ≤ 12)
    (hd1 : 1 ≤ d) (hd2 : d ≤ daysInMonth y mo)
    (hh : h ≤ 23) (hmi : mi ≤ 59) (hs : s ≤ 59) :
    strptimeZplain (pad4 y ++ '-' :: (pad2 mo ++ '-' :: (pad2 d ++ 'T' ::
        (pad2 h ++ ':' :: (pad2 mi ++ ':' :: (pad2 s ++ ['Z']))))))
      = some ⟨y, mo, d⟩ := by
  unfold strptimeZplain
  simp only [Option.bind_eq_bind]
  rw [grabDateTime_canonical y mo d h mi s ['Z'] (by omega) hmo1 hmo2 hd1
    (le_trans hd2 (daysInMonth_le y mo)) hh hmi (by omega)]
  simp only [Option.some_bind]
  rw [expectChar_cons]
  simp only [Option.some_bind, eq_self_iff_true, if_true]
  exact mkStamp_valid y mo d h mi s hy1 hy2 hmo1 hmo2 hd1 hd2 hh hmi hs

theorem strptimeZdotted_canonical (y mo d h mi s f : Nat)
    (hy1 : 1 ≤ y) (hy2 : y ≤ 9999) (hmo1 : 1 ≤ mo) (hmo2 : mo ≤ 12)
    (hd1 : 1 ≤ d) (hd2 : d ≤ daysInMonth y mo)
    (hh : h ≤ 23) (hmi : mi ≤ 59) (hs : s ≤ 59) :
    strptimeZdotted (pad4 y ++ '-' :: (pad2 mo ++ '-' :: (pad2 d ++ 'T' ::
        (pad2 h ++ ':' :: (pad2 mi ++ ':' :: (pad2 s ++ '.' :: (pad3 f ++ ['Z'])))))))
      = some ⟨y, mo, d⟩ := by
  unfold strptimeZdotted
  simp only [Option.bind_eq_bind]
  rw [grabDateTime_canonical y mo d h mi s ('.' :: (pad3 f ++ ['Z'])) (by omega) hmo1 hmo2
    hd1 (le_trans hd2 (daysInMonth_le y mo)) hh hmi (by omega)]
  simp only [Option.some_bind]
  rw [expectChar_cons]
  simp only [Option.some_bind]
  have hZ : (digitVal 'Z').isSome = false := rfl
  simp only [pad3, pad2, List.cons_append, List.nil_append, List.takeWhile_cons,
    List.dropWhile_cons, digitVal_digitChar_isSome, hZ, if_true, if_false,
    Bool.false_eq_true, List.takeWhile_nil, List.dropWhile_nil, List.length_cons,
    List.length_nil]
  rw [if_pos (by omega)]
  rw [expectChar_cons]
  simp only [Option.some_bind, eq_self_iff_true, if_true]
  exact mkStamp_valid y mo d h mi s hy1 hy2 hmo1 hmo2 hd1 hd2 hh hmi hs

theorem hasDot_canonical_base (y mo d h mi s : Nat) :
    hasDot (pad4 y ++ '-' :: (pad2 mo ++ '-' :: (pad2 d ++ 'T' ::
      (pad2 h ++ ':' :: (pad2 mi ++ ':' :: pad2 s))))) = false := by
  have hd : ∀ n, (digitChar n == '.') = false := fun n => digitChar_bne n '.' rfl
  simp [hasDot, pad4, pad2, hd]

theorem hasDot_padZ (f : Nat) : hasDot (pad3 f ++ ['Z']) = false := by
  have hd : ∀ n, (digitChar n == '.') = false := fun n => digitChar_bne n '.' rfl
  simp [hasDot, pad3, pad2, hd]

theorem rsplitLastDot_eq (X Y : List Char) (hY : hasDot Y = false) :
    rsplitLastDot (X ++ '.' :: Y) = (X, Y) := by
  induction X with
  | nil => simp [rsplitLastDot, hY]
  | cons a X ih =>
      have h2 : hasDot (X ++ '.' :: Y) = true := by simp [hasDot]
      simp [rsplitLastDot, h2, ih]

theorem rstripZ_concat (X : List Char) : rstripZ (X ++ ['Z']) = rstripZ X := by
  induction X with
  | nil => rfl
  | cons a X ih => simp [rstripZ, ih]

theorem rstripZ_pad3 (f : Nat) : rstripZ (pad3 f) = pad3 f := by
  have h1 : digitChar (f % 100 % 10) ≠ 'Z' := digitChar_ne _ 'Z' rfl
  have h2 : digitChar (f % 100 / 10) ≠ 'Z' := digitChar_ne _ 'Z' rfl
  simp [pad3, pad2, rstripZ, h1, h2]

theorem ljust3_pad3 (f : Nat) : ljust3 ((pad3 f).take 3) = pad3 f := rfl

theorem endsWithZ_canonical (y mo d h mi s : Nat) (frac : Option Nat) :
    endsWithZ (canonicalTsChars y mo d h mi s frac) = true := by
  cases frac <;>
    simp [canonicalTsChars, endsWithZ, pad4, pad2, pad3, List.reverse_append]

theorem canonical_assoc (y mo d h mi s f : Nat) :
    canonicalTsChars y mo d h mi s (some f)
      = (pad4 y ++ '-' :: (pad2 mo ++ '-' :: (pad2 d ++ 'T' ::
          (pad2 h ++ ':' :: (pad2 mi ++ ':' :: pad2 s))))) ++ '.' :: (pad3 f ++ ['Z']) := by
  simp [canonicalTsChars, List.append_assoc]

theorem hasDot_canonical_none (y mo d h mi s : Nat) :
    hasDot (canonicalTsChars y mo d h mi s none) = false := by
  have hd : ∀ n, (digitChar n == '.') = false := fun n => digitChar_bne n '.' rfl
  simp [canonicalTsChars, hasDot, pad4, pad2, hd]

theorem hasDot_canonical_some (y mo d h mi s f : Nat) :
    hasDot (canonicalTsChars y mo d h mi s (some f)) = true := by
  simp [canonicalTsChars, hasDot]

theorem parse_timestamp_canonical (y mo d h mi s : Nat) (frac : Option Nat)
    (hy1 : 1 ≤ y) (hy2 : y ≤ 9999) (hmo1 : 1 ≤ mo) (hmo2 : mo ≤ 12)
    (hd1 : 1 ≤ d) (hd2 : d ≤ daysInMonth y mo)
    (hh : h ≤ 23) (hmi : mi ≤ 59) (hs : s ≤ 59) :
    parse_timestamp (.str ⟨canonicalTsChars y mo d h mi s frac⟩)
      = pyDateString ⟨y, mo, d⟩ := by
  have hne : canonicalTsChars y mo d h mi s frac ≠ [] := by
    cases frac <;> simp [canonicalTsChars, pad4, pad2]
  have htr : truthy (JValue.str ⟨canonicalTsChars y mo d h mi s frac⟩) = true := by
    simp [truthy, String.ext_iff]
    exact hne
  unfold parse_timestamp
  rw [htr]
  simp only [Bool.true_eq_false, if_false]
  rw [endsWithZ_canonical]
  simp only [if_true]
  cases frac with
  | none =>
      rw [hasDot_canonical_none]
      simp only [Bool.false_eq_true, if_false]
      rw [show canonicalTsChars y mo d h mi s none
            = pad4 y ++ '-' :: (pad2 mo ++ '-' :: (pad2 d ++ 'T' ::
                (pad2 h ++ ':' :: (pad2 mi ++ ':' :: (pad2 s ++ ['Z']))))) from rfl,
          strptimeZplain_canonical y mo d h mi s hy1 hy2 hmo1 hmo2 hd1 hd2 hh hmi hs]
  | some f =>
      rw [hasDot_canonical_some]
      simp only [if_true]
      rw [canonical_assoc, rsplitLastDot_eq _ _ (hasDot_padZ f)]
      rw [rstripZ_concat, rstripZ_pad3, ljust3_pad3]
      rw [show ((pad4 y ++ '-' :: (pad2 mo ++ '-' :: (pad2 d ++ 'T' ::
              (pad2 h ++ ':' :: (pad2 mi ++ ':' :: pad2 s))))) ++ '.' :: (pad3 f ++ ['Z']))
            = pad4 y ++ '-' :: (pad2 mo ++ '-' :: (pad2 d ++ 'T' ::
                (pad2 h ++ ':' :: (pad2 mi ++ ':' :: (pad2 s ++ '.' :: (pad3 f ++ ['Z']))))))
            from by simp [List.append_assoc],
          strptimeZdotted_canonical y mo d h mi s f hy1 hy2 hmo1 hmo2 hd1 hd2 hh hmi hs]

theorem take10_canonical (y mo d h mi s : Nat) (frac : Option Nat) :
    (⟨(canonicalTsChars y mo d h mi s frac).take 10⟩ : String) = pyDateString ⟨y, mo, d⟩ := by
  cases frac <;> rfl

/-- C2: for every valid timestamp of the form `YYYY-MM-DDTHH:MM:SS[.fff]Z`
(all fields in range for Python's `datetime`), the Timestamp Normalizer
returns the date given by the string's first 10 characters — no timezone
conversion; an absent input, and any input on which every parse attempt
fails, returns the literal string `"unknown"`. -/
theorem spec_c2 :
    (∀ y mo d h mi s : Nat, ∀ frac : Option Nat,
      1 ≤ y → y ≤ 9999 → 1 ≤ mo → mo ≤ 12 → 1 ≤ d → d ≤ daysInMonth y mo →
      h ≤ 23 → mi ≤ 59 → s ≤ 59 →
      parse_timestamp (.str ⟨canonicalTsChars y mo d h mi s frac⟩)
        = ⟨(canonicalTsChars y mo d h mi s frac).take 10⟩)
    ∧ parse_timestamp JValue.null = "unknown"
    ∧ (∀ s : String, attemptA s.data = none → attemptB s.data = none →
        attemptC s.data = none → parse_timestamp (.str s) = "unknown") := by
  refine ⟨fun y mo d h mi s frac h1 h2 h3 h4 h5 h6 h7 h8 h9 => ?_, rfl,
    fun s hA hB hC => ?_⟩
  · rw [parse_timestamp_canonical y mo d h mi s frac h1 h2 h3 h4 h5 h6 h7 h8 h9,
      take10_canonical y mo d h mi s frac]
  · by_cases hempty : s = ""
    · subst hempty
      rfl
    · have htr : truthy (JValue.str s) = true := by simp [truthy, hempty]
      unfold parse_timestamp
      rw [htr]
      simp only [Bool.true_eq_false, if_false]
      by_cases hz : endsWithZ s.data = true
      · simp only [hz, if_true]
        by_cases hdot : hasDot s.data = true
        · simp only [hdot, if_true]
          unfold attemptA at hA
          rw [if_pos hdot] at hA
          rw [hA]
        · have hdot2 : hasDot s.data = false := by simpa using hdot
          simp only [hdot2, Bool.false_eq_true, if_false]
          unfold attemptB at hB
          rw [hB]
      · have hz2 : endsWithZ s.data = false := by simpa using hz
        simp only [hz2, Bool.false_eq_true, if_false]
        unfold attemptC at hC
        rw [Option.map_eq_none'] at hC
        rw [hC]

/-- C2 (witness): a concrete valid timestamp and a concrete input failing
every attempt. -/
theorem spec_c2_witness :
    parse_timestamp (.str ⟨canonicalTsChars 2026 1 2 3 4 5 (some 678)⟩)
      = ⟨(canonicalTsChars 2026 1 2 3 4 5 (some 678)).take 10⟩
    ∧ parse_timestamp (.str "nonsense") = "unknown" :=
  ⟨spec_c2.1 2026 1 2 3 4 5 (some 678) (by decide) (by decide) (by decide) (by decide)
      (by decide) (by decide) (by decide) (by decide) (by decide),
   spec_c2.2.2 "nonsense" (by decide) (by decide) (by decide)⟩
